import Mathlib

/-!
Shallow embedding of the PDF-to-Excel extraction pipeline
(`backend/app/` of the repository): the Python value model, the JSON
response parser, the OCR provider chain, the per-file extractor, the
job-processing loop, the consolidator and the field-schema registry.
External effects (pdfplumber, pdf2image, the Gemini API, Tesseract,
the spreadsheet writer, the job store) are modelled as explicit oracle
inputs; everything else is translated from the source.
-/

namespace PdfExtract

/-- A Python/JSON value as it flows through the pipeline: strings,
numbers (JSON numbers of the fragment `-?digits(.digits)?`, modelled as
rationals), booleans, `None`/`null`, `datetime` values (modelled as a
tick count), lists and dicts (association lists in insertion order). -/
inductive PyValue where
  | str (s : String)
  | num (q : Rat)
  | bool (b : Bool)
  | none
  | date (t : Nat)
  | list (xs : List PyValue)
  | dict (xs : List (String × PyValue))
  deriving Repr, Inhabited

/-- JSON whitespace characters (RFC 8259: space, tab, newline, return). -/
def isJsonWs (c : Char) : Bool :=
  c = ' ' || c = '\t' || c = '\n' || c = '\r'

/-- Drop leading JSON whitespace. -/
def skipWs : List Char → List Char
  | [] => []
  | c :: cs => if isJsonWs c then skipWs cs else c :: cs

/-- Decode one character escape of a JSON string literal
(`\u` escapes are outside the modelled fragment). -/
def escChar (c : Char) : Option Char :=
  if c = '"' || c = '\\' || c = '/' then some c
  else if c = 'n' then some '\n'
  else if c = 't' then some '\t'
  else if c = 'r' then some '\r'
  else if c = 'b' then some (Char.ofNat 8)
  else if c = 'f' then some (Char.ofNat 12)
  else Option.none

/-- Parse the body of a JSON string literal after the opening quote:
returns the decoded characters and the rest after the closing quote. -/
def parseStrChars : List Char → Option (List Char × List Char)
  | [] => Option.none
  | '"' :: rest => some ([], rest)
  | '\\' :: rest =>
    match rest with
    | [] => Option.none
    | e :: rest' =>
      match escChar e with
      | Option.none => Option.none
      | some c =>
        match parseStrChars rest' with
        | Option.none => Option.none
        | some (s, r) => some (c :: s, r)
  | c :: rest =>
    match parseStrChars rest with
    | Option.none => Option.none
    | some (s, r) => some (c :: s, r)

/-- Take a maximal run of decimal digits. -/
def takeDigits : List Char → (List Char × List Char)
  | [] => ([], [])
  | c :: cs =>
    if c.isDigit then
      let (ds, rest) := takeDigits cs
      (c :: ds, rest)
    else ([], c :: cs)

/-- Numeric value of a digit run. -/
def digitsToNat (ds : List Char) : Nat :=
  ds.foldl (fun acc c => acc * 10 + (c.toNat - '0'.toNat)) 0

/-- Parse a JSON number of the fragment `-?digits(.digits)?`
(exponents are outside the modelled fragment). -/
def parseNumber (cs : List Char) : Option (Rat × List Char) :=
  let (neg, cs') :=
    match cs with
    | '-' :: rest => (true, rest)
    | _ => (false, cs)
  let (intDs, rest) := takeDigits cs'
  if intDs.isEmpty then Option.none
  else
    let intPart : Rat := (digitsToNat intDs : Int)
    let (q, rest') :=
      match rest with
      | '.' :: rest2 =>
        let (fracDs, rest3) := takeDigits rest2
        if fracDs.isEmpty then (intPart, rest)
        else
          (intPart + (digitsToNat fracDs : Rat) / ((10 : Rat) ^ fracDs.length),
           rest3)
      | _ => (intPart, rest)
    some (if neg then -q else q, rest')

mutual
/-- Fuel-indexed recursive-descent parser for one JSON value
(objects, arrays, strings, numbers, `true`/`false`/`null`). -/
def parseValue : Nat → List Char → Option (PyValue × List Char)
  | 0, _ => Option.none
  | fuel + 1, cs =>
    match skipWs cs with
    | '{' :: rest =>
      match skipWs rest with
      | '}' :: rest' => some (PyValue.dict [], rest')
      | rest' =>
        match parseMembers fuel rest' with
        | Option.none => Option.none
        | some (kvs, rest'') => some (PyValue.dict kvs, rest'')
    | '[' :: rest =>
      match skipWs rest with
      | ']' :: rest' => some (PyValue.list [], rest')
      | rest' =>
        match parseItems fuel rest' with
        | Option.none => Option.none
        | some (xs, rest'') => some (PyValue.list xs, rest'')
    | '"' :: rest =>
      match parseStrChars rest with
      | Option.none => Option.none
      | some (s, rest') => some (PyValue.str (String.mk s), rest')
    | 't' :: 'r' :: 'u' :: 'e' :: rest => some (PyValue.bool true, rest)
    | 'f' :: 'a' :: 'l' :: 's' :: 'e' :: rest => some (PyValue.bool false, rest)
    | 'n' :: 'u' :: 'l' :: 'l' :: rest => some (PyValue.none, rest)
    | other =>
      match parseNumber other with
      | Option.none => Option.none
      | some (q, rest) => some (PyValue.num q, rest)

/-- Parse the members of a JSON object after the opening brace
(first key expected next). -/
def parseMembers : Nat → List Char → Option (List (String × PyValue) × List Char)
  | 0, _ => Option.none
  | fuel + 1, cs =>
    match skipWs cs with
    | '"' :: rest =>
      match parseStrChars rest with
      | Option.none => Option.none
      | some (k, rest') =>
        match skipWs rest' with
        | ':' :: rest'' =>
          match parseValue fuel rest'' with
          | Option.none => Option.none
          | some (v, rest3) =>
            match skipWs rest3 with
            | ',' :: rest4 =>
              match parseMembers fuel rest4 with
              | Option.none => Option.none
              | some (kvs, rest5) => some ((String.mk k, v) :: kvs, rest5)
            | '}' :: rest4 => some ([(String.mk k, v)], rest4)
            | _ => Option.none
        | _ => Option.none
    | _ => Option.none

/-- Parse the items of a JSON array after the opening bracket
(first item expected next). -/
def parseItems : Nat → List Char → Option (List PyValue × List Char)
  | 0, _ => Option.none
  | fuel + 1, cs =>
    match parseValue fuel cs with
    | Option.none => Option.none
    | some (v, rest) =>
      match skipWs rest with
      | ',' :: rest' =>
        match parseItems fuel rest' with
        | Option.none => Option.none
        | some (xs, rest'') => some (v :: xs, rest'')
      | ']' :: rest' => some ([v], rest')
      | _ => Option.none
end

/-- `json.loads`: parse a complete JSON document; anything but trailing
whitespace after the value is an error (fragment: no `\u` escapes, no
exponents). -/
def jsonLoads (s : String) : Option PyValue :=
  let cs := s.data
  match parseValue (cs.length + 1) cs with
  | Option.none => Option.none
  | some (v, rest) => if (skipWs rest).isEmpty then some v else Option.none

/-- Python whitespace as stripped by `str.strip()`. -/
def isPyWs (c : Char) : Bool :=
  c = ' ' || c = '\t' || c = '\n' || c = '\r' ||
  c = Char.ofNat 11 || c = Char.ofNat 12

/-- `str.strip()`: drop leading and trailing whitespace. -/
def pyStrip (cs : List Char) : List Char :=
  ((cs.dropWhile isPyWs).reverse.dropWhile isPyWs).reverse

/-- Index (counted from `i`) of the first occurrence of `pat`. -/
def findFromAux (pat : List Char) : List Char → Nat → Option Nat
  | [], i => if pat.isEmpty then some i else Option.none
  | c :: cs, i =>
    if pat.isPrefixOf (c :: cs) then some i else findFromAux pat cs (i + 1)

/-- Python `str.find(sub, start)`: first index of `sub` at or after
`start`, `-1` when absent (used here only with non-empty `sub` and
`start` within bounds, as in the source). -/
def pyFind (hay pat : List Char) (start : Nat) : Int :=
  match findFromAux pat (hay.drop start) 0 with
  | some j => ((start + j : Nat) : Int)
  | Option.none => -1

/-- Python `str.rfind(ch)`: last index of the character, `-1` if absent. -/
def pyRfindChar (cs : List Char) (c : Char) : Int :=
  match cs.reverse.findIdx? (fun x => x = c) with
  | some j => ((cs.length - 1 - j : Nat) : Int)
  | Option.none => -1

/-- Python slice `s[a:b]` for `a ≥ 0` and arbitrary `b`
(negative `b` counts from the end; both ends are clamped). -/
def pySlice (cs : List Char) (a : Nat) (b : Int) : List Char :=
  let n := cs.length
  let b' : Nat := if b < 0 then ((n : Int) + b).toNat else min b.toNat n
  (cs.take b').drop a

/-- Strategy 2 candidate: when the fenced marker is present, the
stripped content between the end of the marker and the next fence
(`content[json_start:json_end]` with Python `find` semantics). -/
def fencedCandidate (cs : List Char) : Option String :=
  match findFromAux ("```json".data) cs 0 with
  | some i =>
    let jsonStart := i + 7
    let jsonEnd : Int := pyFind cs ("```".data) jsonStart
    some (String.mk (pyStrip (pySlice cs jsonStart jsonEnd)))
  | Option.none => Option.none

/-- Strategy 3 candidate: the substring between the first open brace
and the last close brace, when both exist. -/
def braceCandidate (cs : List Char) : Option String :=
  let s := pyFind cs ['{'] 0
  let e := pyRfindChar cs '}' + 1
  if s ≠ -1 ∧ e ≠ 0 then some (String.mk (pySlice cs s.toNat e))
  else Option.none

/-- `OCRService._parse_json_response`: try a whole-response JSON parse;
on failure, the fenced-block candidate if the marker is present; on
failure, the brace-substring candidate.  `None` when every strategy
fails. -/
def parse_json_response (content : String) : Option PyValue :=
  match jsonLoads content with
  | some v => some v
  | Option.none =>
    match (fencedCandidate content.data).bind jsonLoads with
    | some v => some v
    | Option.none => (braceCandidate content.data).bind jsonLoads

/-- Python truthiness of a value (`if x:`). -/
def pyTruthy : PyValue → Bool
  | .str s => !s.isEmpty
  | .num q => decide (q ≠ 0)
  | .bool b => b
  | .none => false
  | .date _ => true
  | .list xs => !xs.isEmpty
  | .dict xs => !xs.isEmpty

/-- `dict.get(k)`: the stored value, `None` when the key is absent. -/
def pyGet (d : List (String × PyValue)) (k : String) : PyValue :=
  match d.find? (fun kv => kv.1 == k) with
  | some kv => kv.2
  | Option.none => PyValue.none

/-- Python dict assignment `d[k] = v`: overwrite in place, else append. -/
def dictSet (d : List (String × PyValue)) (k : String) (v : PyValue) :
    List (String × PyValue) :=
  if d.any (fun kv => kv.1 == k) then
    d.map (fun kv => if kv.1 == k then (k, v) else kv)
  else d ++ [(k, v)]

/-- Is the value Python `None` / JSON `null`? -/
def isNoneValue : PyValue → Bool
  | .none => true
  | _ => false

/-- The dict payload of a value, when it is a dict
(`.items()` on anything else raises). -/
def asDict : PyValue → Option (List (String × PyValue))
  | .dict xs => some xs
  | _ => Option.none

/-- The configuration slice the OCR service reads
(`settings.ocr_provider`, `settings.fallback_ocr`, and whether a Gemini
client was initialized, i.e. an API key was present). -/
structure OcrConfig where
  provider : String
  fallback : String
  hasGemini : Bool
  deriving Repr, DecidableEq

/-- Oracle for the external effects of processing one file: the
analyzer verdict, the extracted text, the rasterized pages (opaque
handles), the outcome of the one Gemini call the file makes, the
outcome of the Tesseract call, and the clock. -/
structure FileEnv where
  isScanned : Bool
  pdfText : Option String
  images : List Nat
  geminiResp : Except String String
  tesseractResp : Except String String
  now : Nat
  deriving Repr

/-- `OCRService._extract_with_gemini`: `None` without a client, on a
raised provider call, or on an unparsable/falsy response; otherwise the
parsed mapping.  The response is an oracle, so the prompt does not
appear here. -/
def extract_with_gemini (cfg : OcrConfig) (env : FileEnv) : Option PyValue :=
  if !cfg.hasGemini then Option.none
  else
    match env.geminiResp with
    | .error _ => Option.none
    | .ok content =>
      match parse_json_response content with
      | some v => if pyTruthy v then some v else Option.none
      | Option.none => Option.none

/-- The fixed manual-structuring note of the Tesseract result. -/
def tesseractNote : String := "Basic text extraction - may require manual parsing"

/-- `OCRService._extract_with_tesseract`: raw recognized text tagged
with the extraction-method marker and the note; on a raised call, an
error entry instead. -/
def extract_with_tesseract (env : FileEnv) : List (String × PyValue) :=
  match env.tesseractResp with
  | .ok text =>
    [("raw_text", PyValue.str text),
     ("extraction_method", PyValue.str "tesseract"),
     ("note", PyValue.str tesseractNote)]
  | .error e =>
    [("error", PyValue.str e),
     ("extraction_method", PyValue.str "tesseract_failed")]

/-- `OCRService.extract_data` (image path): primary provider when
configured and available, else — and on a falsy primary result — the
Tesseract fallback when configured, else an empty mapping. -/
def extract_data (cfg : OcrConfig) (env : FileEnv) : PyValue :=
  let primary : Option PyValue :=
    if cfg.provider == "gemini" && cfg.hasGemini then extract_with_gemini cfg env
    else Option.none
  match primary with
  | some v => v
  | Option.none =>
    if cfg.fallback == "tesseract" then PyValue.dict (extract_with_tesseract env)
    else PyValue.dict []

/-- `OCRService.extract_from_text` (text path): Gemini on the raw text;
without a client, on a raised call, or on an unparsable/falsy response
the result is only the raw input text — no offline engine is invoked. -/
def extract_from_text (cfg : OcrConfig) (env : FileEnv) (text : String) : PyValue :=
  if !cfg.hasGemini then PyValue.dict [("raw_text", PyValue.str text)]
  else
    match env.geminiResp with
    | .error _ => PyValue.dict [("raw_text", PyValue.str text)]
    | .ok content =>
      match parse_json_response content with
      | some v =>
        if pyTruthy v then v else PyValue.dict [("raw_text", PyValue.str text)]
      | Option.none => PyValue.dict [("raw_text", PyValue.str text)]

/-- `Extractor._extract_from_scanned_pdf`: error entry when no page
images could be produced, else OCR on the first page. -/
def extract_from_scanned_pdf (cfg : OcrConfig) (env : FileEnv) : PyValue :=
  if env.images.isEmpty then
    PyValue.dict [("error", PyValue.str "Failed to convert PDF to images")]
  else extract_data cfg env

/-- `Extractor._extract_from_text_pdf`: error entry when no text was
extracted, else text-path OCR. -/
def extract_from_text_pdf (cfg : OcrConfig) (env : FileEnv) : PyValue :=
  match env.pdfText with
  | Option.none => PyValue.dict [("error", PyValue.str "Failed to extract text from PDF")]
  | some t =>
    if t.isEmpty then PyValue.dict [("error", PyValue.str "Failed to extract text from PDF")]
    else extract_from_text cfg env t

/-- The fixed invoice indicator set of the classifier. -/
def invoice_indicators : List String := ["invoice_number", "supplier_name", "total_amount"]

/-- The fixed utility-bill indicator set of the classifier. -/
def utility_indicators : List String := ["account_number", "consumption", "meter_reading"]

/-- Count of indicators present as keys of the extracted mapping. -/
def indicatorScore (inds : List String) (d : List (String × PyValue)) : Nat :=
  (inds.filter (fun f => d.any (fun kv => kv.1 == f))).length

/-- `Extractor._detect_document_type`: the strictly higher indicator
count wins; any tie yields `unknown`. -/
def detect_document_type (d : List (String × PyValue)) : String :=
  let invoice_score := indicatorScore invoice_indicators d
  let utility_score := indicatorScore utility_indicators d
  if invoice_score > utility_score then "invoice"
  else if utility_score > invoice_score then "utility_bill"
  else "unknown"

/-- `DocumentType` enumeration of the schemas module. -/
inductive DocumentType where
  | invoice
  | utility_bill
  | unknown
  deriving Repr, DecidableEq, Inhabited

/-- The `.value` string of the enumeration member. -/
def DocumentType.value : DocumentType → String
  | .invoice => "invoice"
  | .utility_bill => "utility_bill"
  | .unknown => "unknown"

/-- `DocumentType(s)`: the member for a valid value string,
`None` for the `ValueError` case. -/
def documentTypeOfString : String → Option DocumentType
  | "invoice" => some DocumentType.invoice
  | "utility_bill" => some DocumentType.utility_bill
  | "unknown" => some DocumentType.unknown
  | _ => Option.none

/-- `ExtractedField` record of the schemas module. -/
structure ExtractedField where
  field_name : String
  value : PyValue
  confidence : Option Rat
  deriving Repr, Inhabited

/-- `DocumentExtraction` record of the schemas module
(`extraction_time` as a tick count). -/
structure DocumentExtraction where
  file_id : String
  filename : String
  document_type : DocumentType
  fields : List ExtractedField
  extraction_time : Nat
  success : Bool
  error : Option String
  deriving Repr, Inhabited

/-- `success=bool(extracted_data and extracted_data.get("error") is None)`. -/
def successFlag (d : List (String × PyValue)) : Bool :=
  !d.isEmpty && isNoneValue (pyGet d "error")

/-- `error=extracted_data.get("error")` (every code path that writes
the key stores a string, so only the string case is populated). -/
def errorValue (d : List (String × PyValue)) : Option String :=
  match pyGet d "error" with
  | .str s => some s
  | _ => Option.none

/-- The failure record built by `extract_from_file`'s handler. -/
def failedExtraction (file_id filename : String) (now : Nat) (msg : String) :
    DocumentExtraction :=
  { file_id := file_id, filename := filename, document_type := DocumentType.unknown,
    fields := [], extraction_time := now, success := false, error := some msg }

/-- Message of the `AttributeError` raised by `.items()` on a non-dict
provider result (its exact Python wording is runtime detail). -/
def itemsErrorMsg : String := "object has no attribute items"

/-- The mapping produced for one file before field conversion:
scanned path or text path by the analyzer verdict. -/
def fileData (cfg : OcrConfig) (env : FileEnv) : PyValue :=
  if env.isScanned then extract_from_scanned_pdf cfg env
  else extract_from_text_pdf cfg env

/-- `Extractor.extract_from_file`: produce the mapping, convert it to
fields, detect the type and substitute it only for a requested
`unknown`, and assemble the record; any exception (non-dict mapping,
invalid enum value) becomes a failure record instead.  `custom_fields`
only shapes the prompt, whose reply is the oracle. -/
def extract_from_file (cfg : OcrConfig) (env : FileEnv)
    (file_id filename document_type : String)
    (custom_fields : Option (List String)) : DocumentExtraction :=
  let _ := custom_fields
  match asDict (fileData cfg env) with
  | Option.none => failedExtraction file_id filename env.now itemsErrorMsg
  | some d =>
    let fields := d.map (fun kv => ExtractedField.mk kv.1 kv.2 Option.none)
    let detected := detect_document_type d
    let dt := if document_type == "unknown" then detected else document_type
    match documentTypeOfString dt with
    | Option.none =>
      failedExtraction file_id filename env.now
        ("'" ++ dt ++ "' is not a valid DocumentType")
    | some t =>
      { file_id := file_id, filename := filename, document_type := t,
        fields := fields, extraction_time := env.now,
        success := successFlag d, error := errorValue d }

/-- One consolidated record built from a successful extraction: the
fixed metadata entries, then one entry per field (duplicate names
overwrite, dict semantics) and a `<name>_confidence` entry when a
confidence score is present. -/
def buildRecord (e : DocumentExtraction) : List (String × PyValue) :=
  let base := [("filename", PyValue.str e.filename),
               ("file_id", PyValue.str e.file_id),
               ("document_type", PyValue.str e.document_type.value),
               ("extraction_time", PyValue.date e.extraction_time)]
  e.fields.foldl (fun record f =>
    let r1 := dictSet record f.field_name f.value
    match f.confidence with
    | some c => dictSet r1 (f.field_name ++ "_confidence") (PyValue.num c)
    | Option.none => r1) base

/-- The DataFrame columns of a record list: union of the keys in
first-appearance order (as `pd.DataFrame(records)` builds them). -/
def dfColumns (records : List (List (String × PyValue))) : List String :=
  records.foldl
    (fun acc r =>
      r.foldl (fun acc2 kv => if acc2.contains kv.1 then acc2 else acc2 ++ [kv.1]) acc)
    []

/-- Python's `<=` on two cells, as the pandas object-column sort uses
it: numbers and booleans inter-compare, strings with strings, datetimes
with datetimes; any other pairing raises `TypeError`, modelled `none`.
(Dicts never compare in Python; the lexicographic comparison of two
lists is outside the modelled fragment and also left incomparable —
this only makes the modelled sort fail in more cases, never succeed
where the program would raise.) -/
def cellLe (a b : PyValue) : Option Bool :=
  match a, b with
  | .num x, .num y => some (decide (x ≤ y))
  | .num x, .bool y => some (decide (x ≤ (if y then 1 else 0 : Rat)))
  | .bool x, .num y => some (decide ((if x then 1 else 0 : Rat) ≤ y))
  | .bool x, .bool y => some (!x || y)
  | .str x, .str y => some (decide (x ≤ y))
  | .date x, .date y => some (decide (x ≤ y))
  | _, _ => Option.none

/-- Insert one row into an already-sorted run, propagating a raised
comparison. -/
def insertRowP {α : Type} (le : α → α → Option Bool) (x : α) :
    List α → Option (List α)
  | [] => some [x]
  | y :: ys =>
    match le x y with
    | Option.none => Option.none
    | some true => some (x :: y :: ys)
    | some false =>
      match insertRowP le x ys with
      | Option.none => Option.none
      | some zs => some (y :: zs)

/-- Sort with a fallible comparison: `none` as soon as any performed
comparison raises (as the pandas argsort does on incomparable cells). -/
def sortP {α : Type} (le : α → α → Option Bool) : List α → Option (List α)
  | [] => some []
  | x :: xs =>
    match sortP le xs with
    | Option.none => Option.none
    | some ys => insertRowP le x ys

/-- `df.sort_values(col)`: missing cells are `NaN` and are placed last
without being compared (`na_position='last'`); the remaining rows are
sorted by the column's cell, and a `TypeError` from any comparison of
incomparable cells aborts the whole sort (`none`). -/
def sortByCol (col : String) (records : List (List (String × PyValue))) :
    Option (List (List (String × PyValue))) :=
  match sortP (fun r1 r2 => cellLe (pyGet r1 col) (pyGet r2 col))
      (records.filter (fun r => !(isNoneValue (pyGet r col)))) with
  | Option.none => Option.none
  | some sorted =>
    some (sorted ++ records.filter (fun r => isNoneValue (pyGet r col)))

/-- One row per successful extraction. -/
def successRecords (extractions : List DocumentExtraction) :
    List (List (String × PyValue)) :=
  (extractions.filter (fun e => e.success)).map buildRecord

/-- `Consolidator.consolidate`: one record per successful extraction;
empty result (not an error) when none; rows sorted by `invoice_date`
if that column exists, else by `bill_date` if that one does, else kept
in input order.  A `TypeError` raised by the sort on a mixed-type
column is caught by the method's blanket handler, which returns an
empty DataFrame — losing every row. -/
def consolidate (extractions : List DocumentExtraction) :
    List (List (String × PyValue)) :=
  let records := successRecords extractions
  if records.isEmpty then []
  else
    let cols := dfColumns records
    if cols.contains "invoice_date" then
      match sortByCol "invoice_date" records with
      | some sorted => sorted
      | Option.none => []
    else if cols.contains "bill_date" then
      match sortByCol "bill_date" records with
      | some sorted => sorted
      | Option.none => []
    else records

/-- The cells of one column across all rows (missing cell → `None`). -/
def colValues (records : List (List (String × PyValue))) (c : String) :
    List PyValue :=
  records.map (fun r => pyGet r c)

/-- Is the cell a number? -/
def isNumCell : PyValue → Bool
  | .num _ => true
  | _ => false

/-- Is the cell a datetime? -/
def isDateCell : PyValue → Bool
  | .date _ => true
  | _ => false

/-- `select_dtypes(include=['number'])` membership: every cell of the
column is a number or missing (a column of numbers with gaps is a float
column; an all-missing column is the all-`NaN` float column). -/
def isNumericCol (records : List (List (String × PyValue))) (c : String) : Bool :=
  (colValues records c).all (fun v => isNumCell v || isNoneValue v)

/-- `select_dtypes(include=['datetime64'])` membership: every cell is a
datetime or missing and at least one datetime is present. -/
def isDateCol (records : List (List (String × PyValue))) (c : String) : Bool :=
  (colValues records c).all (fun v => isDateCell v || isNoneValue v) &&
  (colValues records c).any isDateCell

/-- The present numeric values of a column (pandas skips `NaN`). -/
def numericVals (records : List (List (String × PyValue))) (c : String) :
    List Rat :=
  (colValues records c).filterMap (fun v =>
    match v with
    | .num q => some q
    | _ => Option.none)

/-- The present datetime values of a column. -/
def dateVals (records : List (List (String × PyValue))) (c : String) :
    List Nat :=
  (colValues records c).filterMap (fun v =>
    match v with
    | .date t => some t
    | _ => Option.none)

/-- Python `str.endswith`. -/
def strEndsWith (s suffix : String) : Bool :=
  suffix.data.isSuffixOf s.data

/-- `df[col].sum()` with `NaN` skipped (0 on an empty column). -/
def ratSum (vals : List Rat) : Rat := vals.foldl (· + ·) 0

/-- `df[col].mean()`: `NaN` (modelled `None`) when no value is present. -/
def ratMean (vals : List Rat) : PyValue :=
  if vals.isEmpty then PyValue.none
  else PyValue.num (ratSum vals / (vals.length : Rat))

/-- `df[col].min()`: `NaN` when no value is present. -/
def ratMin (vals : List Rat) : PyValue :=
  match vals with
  | [] => PyValue.none
  | x :: xs => PyValue.num (xs.foldl min x)

/-- `df[col].max()`: `NaN` when no value is present. -/
def ratMax (vals : List Rat) : PyValue :=
  match vals with
  | [] => PyValue.none
  | x :: xs => PyValue.num (xs.foldl max x)

/-- Earliest datetime of a column (`min` with `NaT` skipped). -/
def dateMin (vals : List Nat) : PyValue :=
  match vals with
  | [] => PyValue.none
  | x :: xs => PyValue.date (xs.foldl min x)

/-- Latest datetime of a column. -/
def dateMax (vals : List Nat) : PyValue :=
  match vals with
  | [] => PyValue.none
  | x :: xs => PyValue.date (xs.foldl max x)

/-- One numeric column's contribution to the summary dict:
`_confidence`-suffixed columns are skipped, every other one adds its
sum, mean, min and max entries. -/
def numericStatStep (records : List (List (String × PyValue)))
    (acc : List (String × PyValue)) (c : String) : List (String × PyValue) :=
  if strEndsWith c "_confidence" then acc
  else
    dictSet
      (dictSet
        (dictSet
          (dictSet acc (c ++ "_sum") (PyValue.num (ratSum (numericVals records c))))
          (c ++ "_mean") (ratMean (numericVals records c)))
        (c ++ "_min") (ratMin (numericVals records c)))
      (c ++ "_max") (ratMax (numericVals records c))

/-- One datetime column's contribution to the summary dict: the
`extraction_time` metadata column is skipped, every other one adds its
earliest and latest entries. -/
def dateStatStep (records : List (List (String × PyValue)))
    (acc : List (String × PyValue)) (c : String) : List (String × PyValue) :=
  if c == "extraction_time" then acc
  else
    dictSet (dictSet acc (c ++ "_earliest") (dateMin (dateVals records c)))
      (c ++ "_latest") (dateMax (dateVals records c))

/-- `Consolidator.calculate_summary`: the record count and column list,
then sum/mean/min/max per numeric column except `_confidence`-suffixed
ones, then earliest/latest per datetime column except the
`extraction_time` metadata column. -/
def calculate_summary (records : List (List (String × PyValue))) :
    List (String × PyValue) :=
  let cols := dfColumns records
  let base := [("total_records", PyValue.num (records.length : Rat)),
               ("columns", PyValue.list (cols.map PyValue.str))]
  (cols.filter (isDateCol records)).foldl (dateStatStep records)
    ((cols.filter (isNumericCol records)).foldl (numericStatStep records) base)

/-- `FieldDefinition` of the extraction-fields module
(the unused `validation_pattern` defaults to `None` and is omitted). -/
structure FieldDefinition where
  name : String
  description : String
  data_type : String
  required : Bool
  deriving Repr, DecidableEq

/-- The module-level `INVOICE_FIELDS` list. -/
def INVOICE_FIELDS : List FieldDefinition :=
  [⟨"invoice_number", "Unique invoice identifier/number", "string", true⟩,
   ⟨"invoice_date", "Date the invoice was issued", "date", true⟩,
   ⟨"due_date", "Payment due date", "date", false⟩,
   ⟨"supplier_name", "Name of the supplier/vendor", "string", true⟩,
   ⟨"supplier_address", "Supplier's address", "string", false⟩,
   ⟨"customer_name", "Name of the customer/client", "string", false⟩,
   ⟨"subtotal", "Subtotal amount before tax", "number", true⟩,
   ⟨"tax_amount", "Tax/VAT amount", "number", false⟩,
   ⟨"tax_rate", "Tax/VAT rate percentage", "number", false⟩,
   ⟨"total_amount", "Total amount including tax", "number", true⟩,
   ⟨"currency", "Currency code (USD, EUR, GBP, etc.)", "string", false⟩,
   ⟨"payment_terms", "Payment terms or conditions", "string", false⟩,
   ⟨"reference_number", "Reference or PO number", "string", false⟩]

/-- The module-level `UTILITY_BILL_FIELDS` list. -/
def UTILITY_BILL_FIELDS : List FieldDefinition :=
  [⟨"account_number", "Customer account number", "string", true⟩,
   ⟨"bill_date", "Date the bill was issued", "date", true⟩,
   ⟨"due_date", "Payment due date", "date", true⟩,
   ⟨"provider_name", "Utility provider name", "string", true⟩,
   ⟨"service_address", "Service location address", "string", false⟩,
   ⟨"billing_period_start", "Start date of billing period", "date", false⟩,
   ⟨"billing_period_end", "End date of billing period", "date", false⟩,
   ⟨"meter_reading_previous", "Previous meter reading", "number", false⟩,
   ⟨"meter_reading_current", "Current meter reading", "number", false⟩,
   ⟨"consumption", "Total consumption (kWh, m³, etc.)", "number", true⟩,
   ⟨"consumption_unit", "Unit of consumption (kWh, m³, gallons, etc.)", "string", false⟩,
   ⟨"unit_rate", "Rate per unit", "number", false⟩,
   ⟨"charges", "Total charges before tax", "number", true⟩,
   ⟨"tax_amount", "Tax amount", "number", false⟩,
   ⟨"total_amount", "Total amount due", "number", true⟩,
   ⟨"utility_type", "Type of utility (electricity, gas, water, etc.)", "string", false⟩]

/-- The registry's mutable module state: the two stored sequences the
field map aliases. -/
structure FieldRegistry where
  invoice : List FieldDefinition
  utility_bill : List FieldDefinition
  deriving Repr, DecidableEq

/-- The state at module load. -/
def initialRegistry : FieldRegistry := ⟨INVOICE_FIELDS, UTILITY_BILL_FIELDS⟩

/-- `get_field_definitions`: the stored sequence for the label;
unrecognized labels default to the stored invoice sequence (the *same
object*, not a copy). -/
def get_field_definitions (reg : FieldRegistry) (document_type : String) :
    List FieldDefinition :=
  if document_type == "utility_bill" then reg.utility_bill else reg.invoice

/-- Write back through the alias `get_field_definitions` returned. -/
def registrySet (reg : FieldRegistry) (document_type : String)
    (fields : List FieldDefinition) : FieldRegistry :=
  if document_type == "utility_bill" then { reg with utility_bill := fields }
  else { reg with invoice := fields }

/-- One `- name: description (type: t, required/optional)` line. -/
def fieldLine (f : FieldDefinition) : String :=
  "- " ++ f.name ++ ": " ++ f.description ++ " (type: " ++ f.data_type ++ ", " ++
  (if f.required then "required" else "optional") ++ ")"

/-- The prompt template rendered over the field list. -/
def renderPrompt (document_type : String) (fields : List FieldDefinition) : String :=
  let field_descriptions := String.intercalate "\n" (fields.map fieldLine)
  "You are a document data extraction specialist. Extract the following information from this "
  ++ document_type ++ " image.\n\nFIELDS TO EXTRACT:\n" ++ field_descriptions ++
  "\n\nINSTRUCTIONS:\n1. Carefully analyze the entire document\n2. Extract each field value accurately\n3. If a field is not found or unclear, use null\n4. For dates, use ISO format (YYYY-MM-DD)\n5. For numbers, extract numeric values only (no currency symbols)\n6. Be precise and verify extracted data\n\nReturn the data as a JSON object with the field names as keys.\nExample format:\n\x7b\n    \"field_name_1\": \"value\",\n    \"field_name_2\": 123.45,\n    \"field_name_3\": \"2024-01-15\",\n    \"field_name_4\": null\n\x7d\n\nOnly return the JSON object, no additional text or explanation."

/-- `create_extraction_prompt`, with the module state made explicit:
`fields = get_field_definitions(...)` aliases the stored list, so
`fields.append(...)` for each custom field writes through to the
registry; the returned pair is (prompt, registry state after the call). -/
def create_extraction_prompt (document_type : String)
    (custom_fields : Option (List String)) (reg : FieldRegistry) :
    String × FieldRegistry :=
  let fields := get_field_definitions reg document_type
  match custom_fields with
  | some cfs =>
    if cfs.isEmpty then (renderPrompt document_type fields, reg)
    else
      let fields' := fields ++
        cfs.map (fun n => FieldDefinition.mk n ("Extract " ++ n) "string" false)
      (renderPrompt document_type fields', registrySet reg document_type fields')
  | Option.none => (renderPrompt document_type fields, reg)

/-- `JobStatus` enumeration. -/
inductive JobStatus where
  | pending
  | processing
  | completed
  | failed
  deriving Repr, DecidableEq

/-- The mutable per-job record of `job_storage` (the fields the status
endpoint reports, with progress as an exact rational). -/
structure JobState where
  status : JobStatus
  progress : Rat
  files_processed : Nat
  total_files : Nat
  current_file : Option String
  error_message : Option String
  extractions : List DocumentExtraction
  output_file_path : Option String
  deriving Repr

/-- One input file of a job: its id, its name, and its effect oracle. -/
structure FileSpec where
  file_id : String
  filename : String
  env : FileEnv
  deriving Repr

/-- The request parameters the background task reads. -/
structure ExtractionRequest where
  document_type : String
  custom_fields : Option (List String)
  consolidate : Bool
  deriving Repr

/-- Oracle for the job-level external effects: the write of the results
back into the shared store (the pipeline-level failure point outside
the per-file loop) and the spreadsheet generation (which re-raises its
errors). -/
structure JobEnv where
  storeResult : Except String Unit
  excelResult : Except String String
  deriving Repr

/-- The job record created at submission. -/
def initialJob (n : Nat) : JobState :=
  { status := JobStatus.pending, progress := 0, files_processed := 0,
    total_files := n, current_file := Option.none, error_message := Option.none,
    extractions := [], output_file_path := Option.none }

/-- Progress after `k` of `n` files: `(k / n) * 100`. -/
def progressOf (n k : Nat) : Rat := ((k : Rat) / (n : Rat)) * 100

/-- The per-file loop over the job record: for each file set
`current_file`, run the extraction, then set `files_processed` and
`progress`; returns the record afterwards and the snapshot list (one
snapshot per mutation of the shared record). -/
def runFiles (n : Nat) : List FileSpec → Nat → JobState → JobState × List JobState
  | [], _, s => (s, [])
  | f :: fs, idx, s =>
    let sA := { s with current_file := some f.filename }
    let sB := { sA with files_processed := idx + 1, progress := progressOf n (idx + 1) }
    let (sF, tr) := runFiles n fs (idx + 1) sB
    (sF, sA :: sB :: tr)

/-- The extraction records of a job, one per file in submission order
(`extract_from_file` is total: every per-file failure is already
converted into a failure record inside it). -/
def jobRecords (cfg : OcrConfig) (req : ExtractionRequest)
    (files : List FileSpec) : List DocumentExtraction :=
  files.map (fun f =>
    extract_from_file cfg f.env f.file_id f.filename req.document_type
      req.custom_fields)

/-- The guarded consolidation stage of `process_extraction_job`: when
requested and any record exists, consolidate and, on a non-empty
table, compute the summary (`calculate_summary` — total, and fed only
to the spreadsheet writer the oracle replaces) and generate the
spreadsheet; a generation failure only sets the job's error message. -/
def consolidationStep (req : ExtractionRequest) (jenv : JobEnv)
    (records : List DocumentExtraction) (s : JobState) : JobState :=
  if req.consolidate && !records.isEmpty then
    if !(consolidate records).isEmpty then
      match jenv.excelResult with
      | .ok path => { s with output_file_path := some path }
      | .error e =>
        { s with error_message := some ("Consolidation failed: " ++ e) }
    else s
  else s

/-- `process_extraction_job`: transition to Processing, run the
per-file loop, write the records back (a failure of this pipeline-level
step — the only fallible statement of the outer scope outside the
guarded consolidation block — drives the job to Failed with that
message), then run the consolidation stage, mark Completed and set
progress to 100.  Returns the final record and the ordered snapshots a
status poll could observe. -/
def processJob (cfg : OcrConfig) (req : ExtractionRequest)
    (files : List FileSpec) (jenv : JobEnv) : JobState × List JobState :=
  let n := files.length
  let s0 := initialJob n
  let s1 := { s0 with status := JobStatus.processing }
  let p := runFiles n files 0 s1
  let records := jobRecords cfg req files
  match jenv.storeResult with
  | .error msg =>
    let sX := { p.1 with status := JobStatus.failed, error_message := some msg }
    (sX, s0 :: s1 :: p.2 ++ [sX])
  | .ok _ =>
    let sE := { p.1 with extractions := records }
    let sC := consolidationStep req jenv records sE
    let sDone := { sC with status := JobStatus.completed }
    let sFin := { sDone with progress := 100 }
    (sFin, s0 :: s1 :: p.2 ++ [sE, sC, sDone, sFin])

/-- `successful` of the result endpoint: records with `success` set. -/
def successfulCount (es : List DocumentExtraction) : Nat :=
  (es.filter (fun e => e.success)).length

/-! Concrete fixtures used by witnesses and counterexamples. -/

/-- The default provider configuration
(`ocr_provider="gemini"`, `fallback_ocr="tesseract"`, API key present). -/
def defaultOcrConfig : OcrConfig := ⟨"gemini", "tesseract", true⟩

/-- A text-native file whose provider call raises. -/
def textProviderFailEnv : FileEnv :=
  ⟨false, some "hello", [], Except.error "boom", Except.ok "x", 7⟩

/-- A scanned file whose provider call raises and whose Tesseract call
succeeds. -/
def scanProviderFailEnv : FileEnv :=
  ⟨true, Option.none, [0], Except.error "boom", Except.ok "recognized", 7⟩

/-- A successful extraction fixture with one numeric field. -/
def sampleSuccess (fid : String) (v : Rat) : DocumentExtraction :=
  { file_id := fid, filename := fid ++ ".pdf", document_type := DocumentType.invoice,
    fields := [⟨"total_amount", PyValue.num v, Option.none⟩], extraction_time := 1,
    success := true, error := Option.none }

/-- A failed extraction fixture. -/
def sampleFailure : DocumentExtraction :=
  { file_id := "f2", filename := "f2.pdf", document_type := DocumentType.unknown,
    fields := [], extraction_time := 1, success := false, error := some "boom" }

/-- The consolidated table of three successful extractions whose
`total_amount` column holds 10, 20 and 30. -/
def sampleSummaryTable : List (List (String × PyValue)) :=
  consolidate [sampleSuccess "f1" 10, sampleSuccess "f2" 20, sampleSuccess "f3" 30]

/-- A successful extraction whose provider returned `invoice_date` as
an ISO date string. -/
def mixedDateStr : DocumentExtraction :=
  { file_id := "m1", filename := "m1.pdf", document_type := DocumentType.invoice,
    fields := [⟨"invoice_date", PyValue.str "2024-01-15", Option.none⟩],
    extraction_time := 1, success := true, error := Option.none }

/-- A successful extraction whose provider returned `invoice_date` as
a bare number. -/
def mixedDateNum : DocumentExtraction :=
  { file_id := "m2", filename := "m2.pdf", document_type := DocumentType.invoice,
    fields := [⟨"invoice_date", PyValue.num 20240116, Option.none⟩],
    extraction_time := 1, success := true, error := Option.none }

/-! Theorems. -/

/-- The consolidation stage only ever touches the output path and the
error message, never the status, the progress, the counters or the
stored extractions. -/
lemma consolidationStep_proj (req : ExtractionRequest) (jenv : JobEnv)
    (records : List DocumentExtraction) (s : JobState) :
    (consolidationStep req jenv records s).status = s.status ∧
    (consolidationStep req jenv records s).progress = s.progress ∧
    (consolidationStep req jenv records s).files_processed = s.files_processed ∧
    (consolidationStep req jenv records s).total_files = s.total_files ∧
    (consolidationStep req jenv records s).extractions = s.extractions := by
  unfold consolidationStep
  split
  · split
    · rcases jenv.excelResult with e | p <;> exact ⟨rfl, rfl, rfl, rfl, rfl⟩
    · exact ⟨rfl, rfl, rfl, rfl, rfl⟩
  · exact ⟨rfl, rfl, rfl, rfl, rfl⟩

/-- C5: the response parser tries, in order, the whole-response parse,
the fenced-block content, and the first-open-to-last-close brace
substring; the first strategy yielding valid JSON wins and the parse
fails when all three do; the three spec examples all yield `{a: 1}`. -/
theorem parse_json_strategy_order :
    (∀ content v, jsonLoads content = some v →
      parse_json_response content = some v) ∧
    (∀ content v, jsonLoads content = Option.none →
      (fencedCandidate content.data).bind jsonLoads = some v →
      parse_json_response content = some v) ∧
    (∀ content, jsonLoads content = Option.none →
      (fencedCandidate content.data).bind jsonLoads = Option.none →
      parse_json_response content = (braceCandidate content.data).bind jsonLoads) ∧
    (∀ content, jsonLoads content = Option.none →
      (fencedCandidate content.data).bind jsonLoads = Option.none →
      (braceCandidate content.data).bind jsonLoads = Option.none →
      parse_json_response content = Option.none) ∧
    parse_json_response "```json\n\x7b\"a\":1\x7d\n```" =
      some (PyValue.dict [("a", PyValue.num 1)]) ∧
    parse_json_response "prefix \x7b\"a\":1\x7d suffix" =
      some (PyValue.dict [("a", PyValue.num 1)]) ∧
    parse_json_response "\x7b\"a\":1\x7d" =
      some (PyValue.dict [("a", PyValue.num 1)]) := by
  refine ⟨?_, ?_, ?_, ?_, by rfl, by rfl, by rfl⟩
  · intro content v h
    simp [parse_json_response, h]
  · intro content v h1 h2
    simp [parse_json_response, h1, h2]
  · intro content h1 h2
    simp [parse_json_response, h1, h2]
  · intro content h1 h2 h3
    simp [parse_json_response, h1, h2, h3]

/-- C5 witness: the first strategy applied at a concrete response. -/
theorem parse_json_strategy_order_witness :
    parse_json_response "\x7b\"a\":2\x7d" = some (PyValue.dict [("a", PyValue.num 2)]) :=
  parse_json_strategy_order.1 "\x7b\"a\":2\x7d" (PyValue.dict [("a", PyValue.num 2)]) rfl

/-- C4 counterexample: on the text path, a provider failure does not
produce the offline engine's marker-and-note result — it yields only
the raw input text, with no `extraction_method` and no `note` entry. -/
theorem text_path_no_marker_counterexample :
    extract_from_text defaultOcrConfig textProviderFailEnv "hello" =
      PyValue.dict [("raw_text", PyValue.str "hello")] ∧
    pyGet [("raw_text", PyValue.str "hello")] "extraction_method" = PyValue.none ∧
    pyGet [("raw_text", PyValue.str "hello")] "note" = PyValue.none :=
  ⟨rfl, rfl, rfl⟩

/-- All the ways the primary provider can fail, read off from a failed
`extract_with_gemini`. -/
lemma extract_with_gemini_eq_none_cases (cfg : OcrConfig) (env : FileEnv)
    (h : extract_with_gemini cfg env = Option.none) :
    cfg.hasGemini = false ∨
    (∃ e, env.geminiResp = Except.error e) ∨
    (∃ content, env.geminiResp = Except.ok content ∧
      parse_json_response content = Option.none) ∨
    (∃ content v, env.geminiResp = Except.ok content ∧
      parse_json_response content = some v ∧ pyTruthy v = false) := by
  by_cases hg : cfg.hasGemini
  · rcases hresp : env.geminiResp with content | content
    · right; left; exact ⟨content, rfl⟩
    · rcases hp : parse_json_response content with _ | v
      · right; right; left; exact ⟨content, rfl, hp⟩
      · right; right; right
        refine ⟨content, v, rfl, hp, ?_⟩
        by_contra htruthy
        simp only [Bool.not_eq_false] at htruthy
        simp [extract_with_gemini, hg, hresp, hp, htruthy] at h
  · exact Or.inl (by simpa using hg)

/-- C4 (amended): on the scanned path a failed primary falls to the
offline engine as a total replacement whose successful result holds
exactly the raw text, the method marker and the note; on the text path
a failed primary yields only the raw input text (no offline engine, no
marker, no note); a successful primary is returned as-is on both paths
— the providers are never combined. -/
theorem fallback_total_replacement :
    (∀ cfg env, cfg.provider = "gemini" → cfg.fallback = "tesseract" →
      extract_with_gemini cfg env = Option.none →
      extract_data cfg env = PyValue.dict (extract_with_tesseract env)) ∧
    (∀ env t, env.tesseractResp = Except.ok t →
      extract_with_tesseract env =
        [("raw_text", PyValue.str t), ("extraction_method", PyValue.str "tesseract"),
         ("note", PyValue.str tesseractNote)]) ∧
    (∀ cfg env text, extract_with_gemini cfg env = Option.none →
      extract_from_text cfg env text = PyValue.dict [("raw_text", PyValue.str text)]) ∧
    (∀ cfg env v, cfg.provider = "gemini" → extract_with_gemini cfg env = some v →
      extract_data cfg env = v) ∧
    (∀ cfg env text v, extract_with_gemini cfg env = some v →
      extract_from_text cfg env text = v) := by
  refine ⟨?_, ?_, ?_, ?_, ?_⟩
  · intro cfg env hp hf hg
    by_cases hgem : cfg.hasGemini
    · simp [extract_data, hp, hf, hgem, hg]
    · simp [extract_data, hp, hf, hgem]
  · intro env t h
    simp [extract_with_tesseract, h]
  · intro cfg env text h
    rcases extract_with_gemini_eq_none_cases cfg env h with hg | ⟨e, he⟩ |
      ⟨content, hc, hp⟩ | ⟨content, v, hc, hp, ht⟩
    · simp [extract_from_text, hg]
    · by_cases hgem : cfg.hasGemini <;> simp [extract_from_text, hgem, he]
    · by_cases hgem : cfg.hasGemini <;> simp [extract_from_text, hgem, hc, hp]
    · by_cases hgem : cfg.hasGemini <;> simp [extract_from_text, hgem, hc, hp, ht]
  · intro cfg env v hp hg
    have hgem : cfg.hasGemini = true := by
      by_contra hc
      simp only [Bool.not_eq_true] at hc
      simp [extract_with_gemini, hc] at hg
    simp [extract_data, hp, hgem, hg]
  · intro cfg env text v hg
    have hgem : cfg.hasGemini = true := by
      by_contra hc
      simp only [Bool.not_eq_true] at hc
      simp [extract_with_gemini, hc] at hg
    rcases hresp : env.geminiResp with e | content
    · simp [extract_with_gemini, hgem, hresp] at hg
    · rcases hp : parse_json_response content with _ | w
      · simp [extract_with_gemini, hgem, hresp, hp] at hg
      · have hw : w = v ∧ pyTruthy w = true := by
          by_cases ht : pyTruthy w
          · simp [extract_with_gemini, hgem, hresp, hp, ht] at hg
            exact ⟨hg, ht⟩
          · simp [extract_with_gemini, hgem, hresp, hp, ht] at hg
        rcases hw with ⟨hwv, hwt⟩
        subst hwv
        simp [extract_from_text, hgem, hresp, hp, hwt]

/-- C4 witness: the scanned-path replacement and the text-path shape at
the concrete failing environment. -/
theorem fallback_total_replacement_witness :
    extract_data defaultOcrConfig scanProviderFailEnv =
      PyValue.dict (extract_with_tesseract scanProviderFailEnv) :=
  fallback_total_replacement.1 defaultOcrConfig scanProviderFailEnv rfl rfl rfl

set_option maxRecDepth 80000 in
/-- C9: building the extraction instruction is *not* stateless — the
field map aliases the module-level lists, so a call with custom fields
appends them to the stored invoice sequence; a second call with the
same inputs returns a different (longer) instruction.  The spec's
purity statement is the intent; the aliasing append is the slip. -/
theorem create_prompt_mutates_registry :
    (create_extraction_prompt "invoice" (some ["po_number"]) initialRegistry).1 ≠
      (create_extraction_prompt "invoice" (some ["po_number"])
        (create_extraction_prompt "invoice" (some ["po_number"]) initialRegistry).2).1 ∧
    (create_extraction_prompt "invoice" (some ["po_number"]) initialRegistry).2 ≠
      initialRegistry ∧
    (create_extraction_prompt "invoice" (some ["po_number"]) initialRegistry).2.invoice.length =
      INVOICE_FIELDS.length + 1 :=
  ⟨by decide, by decide, by rfl⟩

/-- The classifier only ever returns one of the three labels. -/
lemma detect_document_type_mem (d : List (String × PyValue)) :
    detect_document_type d = "invoice" ∨ detect_document_type d = "utility_bill" ∨
    detect_document_type d = "unknown" := by
  by_cases h1 : indicatorScore invoice_indicators d > indicatorScore utility_indicators d
  · exact Or.inl (by simp [detect_document_type, h1])
  · by_cases h2 : indicatorScore utility_indicators d > indicatorScore invoice_indicators d
    · exact Or.inr (Or.inl (by simp [detect_document_type, h1, h2]))
    · exact Or.inr (Or.inr (by simp [detect_document_type, h1, h2]))

/-- C6: the classifier counts hits against the fixed invoice and
utility indicator sets; the strictly higher count wins and every tie
(including 0–0) yields `unknown`; the spec's three examples; and the
detected label is substituted only for a requested `unknown` — an
explicitly requested type is never overridden. -/
theorem detect_type_scoring_and_substitution :
    (∀ d, indicatorScore invoice_indicators d > indicatorScore utility_indicators d →
      detect_document_type d = "invoice") ∧
    (∀ d, indicatorScore utility_indicators d > indicatorScore invoice_indicators d →
      detect_document_type d = "utility_bill") ∧
    (∀ d, indicatorScore invoice_indicators d = indicatorScore utility_indicators d →
      detect_document_type d = "unknown") ∧
    detect_document_type
      [("invoice_number", PyValue.str "1"), ("supplier_name", PyValue.str "s"),
       ("total_amount", PyValue.num 3)] = "invoice" ∧
    detect_document_type
      [("account_number", PyValue.str "1"), ("consumption", PyValue.num 2)] =
      "utility_bill" ∧
    detect_document_type [] = "unknown" ∧
    (∀ cfg env fid fn cf d, asDict (fileData cfg env) = some d →
      (extract_from_file cfg env fid fn "invoice" cf).document_type =
        DocumentType.invoice ∧
      (extract_from_file cfg env fid fn "utility_bill" cf).document_type =
        DocumentType.utility_bill ∧
      (extract_from_file cfg env fid fn "unknown" cf).document_type.value =
        detect_document_type d) := by
  refine ⟨?_, ?_, ?_, by rfl, by rfl, by rfl, ?_⟩
  · intro d h
    simp [detect_document_type, h]
  · intro d h
    have h1 : ¬ indicatorScore invoice_indicators d > indicatorScore utility_indicators d := by
      omega
    simp [detect_document_type, h1, h]
  · intro d h
    have h1 : ¬ indicatorScore invoice_indicators d > indicatorScore utility_indicators d := by
      omega
    have h2 : ¬ indicatorScore utility_indicators d > indicatorScore invoice_indicators d := by
      omega
    simp [detect_document_type, h1, h2]
  · intro cfg env fid fn cf d hd
    refine ⟨?_, ?_, ?_⟩
    · simp [extract_from_file, hd, documentTypeOfString]
    · simp [extract_from_file, hd, documentTypeOfString]
    · rcases detect_document_type_mem d with h | h | h <;>
        simp [extract_from_file, hd, h, documentTypeOfString, DocumentType.value]

/-- C6 witness: substitution applied at a concrete text-path file. -/
theorem detect_type_scoring_and_substitution_witness :
    (extract_from_file defaultOcrConfig textProviderFailEnv "f1" "a.pdf" "invoice"
      Option.none).document_type = DocumentType.invoice :=
  (detect_type_scoring_and_substitution.2.2.2.2.2.2 defaultOcrConfig
    textProviderFailEnv "f1" "a.pdf" Option.none
    [("raw_text", PyValue.str "hello")] rfl).1

/-- C1 counterexample: a provider failure on a text-native file is a
per-file failure (the claim's "provider failure" case), yet the record
appended for it has `success = true` and a null error — the pipeline
recovered it with the raw text, so the claim's "success = false with a
non-null error" is false for this input. -/
theorem provider_failure_success_true_counterexample :
    (processJob defaultOcrConfig ⟨"invoice", Option.none, false⟩
        [⟨"f1", "a.pdf", textProviderFailEnv⟩] ⟨Except.ok (), Except.ok "o.xlsx"⟩).1.extractions =
      [{ file_id := "f1", filename := "a.pdf", document_type := DocumentType.invoice,
         fields := [⟨"raw_text", PyValue.str "hello", Option.none⟩],
         extraction_time := 7, success := true, error := Option.none }] ∧
    (extract_from_file defaultOcrConfig textProviderFailEnv "f1" "a.pdf" "invoice"
      Option.none).success = true ∧
    (extract_from_file defaultOcrConfig textProviderFailEnv "f1" "a.pdf" "invoice"
      Option.none).error = Option.none :=
  ⟨rfl, rfl, rfl⟩

/-- C1 (amended): per-file failures never abort the loop — the job's
results are exactly one record per file in submission order, each
depending only on its own file; and whenever a file's pipeline ends in
an error entry, its record has `success = false` carrying that message
(while failures recovered by a fallback yield a success record, and an
exhausted provider chain yields an empty mapping whose record has
`success = false` with a null error). -/
theorem per_file_failure_isolation :
    (∀ cfg req files jenv, jenv.storeResult = Except.ok () →
      (processJob cfg req files jenv).1.extractions =
        files.map (fun f => extract_from_file cfg f.env f.file_id f.filename
          req.document_type req.custom_fields)) ∧
    (∀ cfg env fid fn dt cf d msg,
      asDict (fileData cfg env) = some d → pyGet d "error" = PyValue.str msg →
      (extract_from_file cfg env fid fn dt cf).success = false ∧
      ((dt = "invoice" ∨ dt = "utility_bill" ∨ dt = "unknown") →
        (extract_from_file cfg env fid fn dt cf).error = some msg)) ∧
    (∀ cfg env fid fn dt cf,
      asDict (fileData cfg env) = some [] →
      (extract_from_file cfg env fid fn dt cf).success = false) := by
  refine ⟨?_, ?_, ?_⟩
  · intro cfg req files jenv h
    rcases jenv with ⟨store, excel⟩
    cases store with
    | error m => simp at h
    | ok u =>
      simp [processJob, jobRecords, consolidationStep_proj]
  · intro cfg env fid fn dt cf d msg hd herr
    have hsf : successFlag d = false := by
      simp [successFlag, herr, isNoneValue]
    have herrv : errorValue d = some msg := by
      simp [errorValue, herr]
    constructor
    · simp only [extract_from_file, hd]
      rcases hdt : documentTypeOfString
          (if dt == "unknown" then detect_document_type d else dt) with _ | t
      · simp [failedExtraction]
      · simp [hsf]
    · intro hvalid
      rcases hvalid with h | h | h
      · subst h; simp [extract_from_file, hd, herrv, documentTypeOfString]
      · subst h; simp [extract_from_file, hd, herrv, documentTypeOfString]
      · subst h
        rcases detect_document_type_mem d with hm | hm | hm <;>
          simp [extract_from_file, hd, herrv, hm, documentTypeOfString]
  · intro cfg env fid fn dt cf hd
    simp only [extract_from_file, hd]
    rcases hdt : documentTypeOfString
        (if dt == "unknown" then detect_document_type [] else dt) with _ | t
    · simp [failedExtraction]
    · simp [successFlag]

/-- C1 witness: the isolation part at a one-file job and the
error-entry part at a scanned file with no convertible pages. -/
theorem per_file_failure_isolation_witness :
    (extract_from_file defaultOcrConfig
      ⟨true, Option.none, [], Except.error "x", Except.error "y", 3⟩
      "f1" "a.pdf" "invoice" Option.none).success = false :=
  (per_file_failure_isolation.2.1 defaultOcrConfig
    ⟨true, Option.none, [], Except.error "x", Except.error "y", 3⟩
    "f1" "a.pdf" "invoice" Option.none
    [("error", PyValue.str "Failed to convert PDF to images")]
    "Failed to convert PDF to images" rfl rfl).1

set_option maxHeartbeats 1000000 in
/-- C10: when the primary provider fails on a scanned document and the
offline engine succeeds, the record has `success = true` even though
its fields are only the raw text, the method marker and the note — no
schema-defined named field — and such a document counts toward the
job's successful total and contributes a consolidation row. -/
theorem tesseract_fallback_success_record :
    ∀ cfg env fid fn cf t,
      env.isScanned = true → env.images ≠ [] →
      cfg.provider = "gemini" → cfg.fallback = "tesseract" →
      extract_with_gemini cfg env = Option.none →
      env.tesseractResp = Except.ok t →
      (extract_from_file cfg env fid fn "unknown" cf).success = true ∧
      (extract_from_file cfg env fid fn "unknown" cf).error = Option.none ∧
      (extract_from_file cfg env fid fn "unknown" cf).fields.map
        (fun f => f.field_name) = ["raw_text", "extraction_method", "note"] ∧
      (extract_from_file cfg env fid fn "unknown" cf).document_type =
        DocumentType.unknown ∧
      (∀ f ∈ (extract_from_file cfg env fid fn "unknown" cf).fields,
        f.field_name ∉ (INVOICE_FIELDS ++ UTILITY_BILL_FIELDS).map
          (fun fd => fd.name)) ∧
      successfulCount [extract_from_file cfg env fid fn "unknown" cf] = 1 ∧
      (consolidate [extract_from_file cfg env fid fn "unknown" cf]).length = 1 := by
  intro cfg env fid fn cf t hscan himg hp hf hg ht
  have hdata : fileData cfg env =
      PyValue.dict
        [("raw_text", PyValue.str t),
         ("extraction_method", PyValue.str "tesseract"),
         ("note", PyValue.str tesseractNote)] := by
    have himg' : env.images.isEmpty = false := by
      simpa [List.isEmpty_iff] using himg
    by_cases hgem : cfg.hasGemini <;>
      simp [fileData, hscan, extract_from_scanned_pdf, himg', extract_data,
        hp, hf, hgem, hg, extract_with_tesseract, ht]
  have hrec : extract_from_file cfg env fid fn "unknown" cf =
      { file_id := fid, filename := fn, document_type := DocumentType.unknown,
        fields :=
          [⟨"raw_text", PyValue.str t, Option.none⟩,
           ⟨"extraction_method", PyValue.str "tesseract", Option.none⟩,
           ⟨"note", PyValue.str tesseractNote, Option.none⟩],
        extraction_time := env.now, success := true, error := Option.none } := by
    simp [extract_from_file, hdata, asDict, detect_document_type, indicatorScore,
      invoice_indicators, utility_indicators, documentTypeOfString, successFlag,
      errorValue, pyGet, isNoneValue]
  rw [hrec]
  refine ⟨rfl, rfl, rfl, rfl, ?_, rfl, rfl⟩
  intro f hmem
  have hname : f.field_name = "raw_text" ∨ f.field_name = "extraction_method" ∨
      f.field_name = "note" := by
    fin_cases hmem <;> simp
  rcases hname with h | h | h <;> rw [h] <;> decide

/-- C10 witness: the theorem applied at the concrete failing scanned
environment. -/
theorem tesseract_fallback_success_record_witness :
    (extract_from_file defaultOcrConfig scanProviderFailEnv "f1" "a.pdf" "unknown"
      Option.none).success = true :=
  (tesseract_fallback_success_record defaultOcrConfig scanProviderFailEnv
    "f1" "a.pdf" Option.none "recognized" rfl (by decide) rfl rfl rfl rfl).1

/-- Inserting into a sorted run adds exactly one row when no
comparison raises. -/
lemma insertRowP_length {α : Type} (le : α → α → Option Bool) (x : α) :
    ∀ (l l' : List α), insertRowP le x l = some l' → l'.length = l.length + 1 := by
  intro l
  induction l with
  | nil =>
    intro l' h
    simp [insertRowP] at h
    subst h
    rfl
  | cons y ys ih =>
    intro l' h
    unfold insertRowP at h
    rcases hle : le x y with _ | b
    · rw [hle] at h
      simp at h
    · rw [hle] at h
      cases b
      · rcases hins : insertRowP le x ys with _ | zs
        · rw [hins] at h
          simp at h
        · rw [hins] at h
          simp at h
          subst h
          rw [List.length_cons, List.length_cons, ih zs hins]
      · simp at h
        subst h
        simp

/-- A successful fallible sort keeps the row count. -/
lemma sortP_length {α : Type} (le : α → α → Option Bool) :
    ∀ (l l' : List α), sortP le l = some l' → l'.length = l.length := by
  intro l
  induction l with
  | nil =>
    intro l' h
    simp [sortP] at h
    subst h
    rfl
  | cons x xs ih =>
    intro l' h
    unfold sortP at h
    rcases hs : sortP le xs with _ | ys
    · rw [hs] at h
      simp at h
    · rw [hs] at h
      rw [insertRowP_length le x ys l' h, ih ys hs, List.length_cons]

/-- The rows with a sort key and the rows without one partition the
record list. -/
lemma length_filter_not_add {α : Type} (p : α → Bool) (l : List α) :
    (l.filter (fun x => !p x)).length + (l.filter p).length = l.length := by
  induction l with
  | nil => rfl
  | cons x xs ih =>
    by_cases h : p x <;> simp [List.filter_cons, h] <;> omega

/-- A successful `sort_values` keeps the row count (sorted keyed rows
plus the `NaN` rows placed last). -/
lemma sortByCol_length (col : String)
    (records sorted : List (List (String × PyValue)))
    (h : sortByCol col records = some sorted) :
    sorted.length = records.length := by
  unfold sortByCol at h
  rcases hs : sortP (fun r1 r2 => cellLe (pyGet r1 col) (pyGet r2 col))
      (records.filter (fun r => !(isNoneValue (pyGet r col)))) with _ | zs
  · rw [hs] at h
    simp at h
  · rw [hs] at h
    simp at h
    subst h
    rw [List.length_append, sortP_length _ _ _ hs]
    exact length_filter_not_add (fun r => isNoneValue (pyGet r col)) records

/-- C7 counterexample: two successful extractions whose `invoice_date`
values are a string and a number.  The pandas sort of that mixed-type
column raises `TypeError`, `consolidate`'s handler returns an empty
DataFrame, and both rows are lost — refuting "exactly the extractions
with success = true contribute one row each". -/
theorem consolidate_mixed_sort_counterexample :
    (([mixedDateStr, mixedDateNum] : List DocumentExtraction).filter
      (fun e => e.success)).length = 2 ∧
    consolidate [mixedDateStr, mixedDateNum] = [] :=
  ⟨rfl, rfl⟩

/-- C7 (amended): consolidation of an empty or all-failed extraction
list is the empty table without raising; when no date sort column is
present, or the sort of the present one succeeds (its compared cells
are mutually comparable), exactly the successful extractions
contribute one row each — so three files with one failure and no
mixed-type sort column give exactly two data rows; but when the sort
raises, the handler returns an empty table, losing every row. -/
theorem consolidate_success_rows :
    consolidate [] = [] ∧
    (∀ es, (∀ e ∈ es, e.success = false) → consolidate es = []) ∧
    (∀ es, (dfColumns (successRecords es)).contains "invoice_date" = false →
      (dfColumns (successRecords es)).contains "bill_date" = false →
      (consolidate es).length = (es.filter (fun e => e.success)).length) ∧
    (∀ es sorted,
      (dfColumns (successRecords es)).contains "invoice_date" = true →
      sortByCol "invoice_date" (successRecords es) = some sorted →
      (consolidate es).length = (es.filter (fun e => e.success)).length) ∧
    (∀ es sorted,
      (dfColumns (successRecords es)).contains "invoice_date" = false →
      (dfColumns (successRecords es)).contains "bill_date" = true →
      sortByCol "bill_date" (successRecords es) = some sorted →
      (consolidate es).length = (es.filter (fun e => e.success)).length) ∧
    (∀ es, (dfColumns (successRecords es)).contains "invoice_date" = true →
      sortByCol "invoice_date" (successRecords es) = Option.none →
      consolidate es = []) ∧
    (∀ es, (dfColumns (successRecords es)).contains "invoice_date" = false →
      (dfColumns (successRecords es)).contains "bill_date" = true →
      sortByCol "bill_date" (successRecords es) = Option.none →
      consolidate es = []) ∧
    (consolidate [sampleSuccess "f1" 10, sampleFailure, sampleSuccess "f3" 20]).length
      = 2 := by
  refine ⟨by rfl, ?_, ?_, ?_, ?_, ?_, ?_, by rfl⟩
  · intro es h
    have hfil : es.filter (fun e => e.success) = [] := by
      rw [List.filter_eq_nil_iff]
      intro e he
      simp [h e he]
    simp [consolidate, successRecords, hfil]
  · intro es h1 h2
    simp only [consolidate]
    by_cases hre : (successRecords es).isEmpty
    · rw [if_pos hre]
      have hnil : successRecords es = [] := List.isEmpty_iff.mp hre
      have hf : es.filter (fun e => e.success) = [] := by
        simpa [successRecords, List.map_eq_nil_iff] using hnil
      simp [hf]
    · rw [if_neg hre, if_neg (by rw [h1]; simp), if_neg (by rw [h2]; simp)]
      simp [successRecords]
  · intro es sorted hcol hsort
    simp only [consolidate]
    by_cases hre : (successRecords es).isEmpty
    · exfalso
      have hnil : successRecords es = [] := List.isEmpty_iff.mp hre
      rw [hnil] at hcol
      simp [dfColumns] at hcol
    · rw [if_neg hre, if_pos hcol, hsort]
      show sorted.length = (es.filter (fun e => e.success)).length
      rw [sortByCol_length _ _ _ hsort]
      simp [successRecords]
  · intro es sorted h1 hcol hsort
    simp only [consolidate]
    by_cases hre : (successRecords es).isEmpty
    · exfalso
      have hnil : successRecords es = [] := List.isEmpty_iff.mp hre
      rw [hnil] at hcol
      simp [dfColumns] at hcol
    · rw [if_neg hre, if_neg (by rw [h1]; simp), if_pos hcol, hsort]
      show sorted.length = (es.filter (fun e => e.success)).length
      rw [sortByCol_length _ _ _ hsort]
      simp [successRecords]
  · intro es hcol hnone
    simp only [consolidate]
    by_cases hre : (successRecords es).isEmpty
    · rw [if_pos hre]
    · rw [if_neg hre, if_pos hcol, hnone]
  · intro es h1 hcol hnone
    simp only [consolidate]
    by_cases hre : (successRecords es).isEmpty
    · rw [if_pos hre]
    · rw [if_neg hre, if_neg (by rw [h1]; simp), if_pos hcol, hnone]

/-- C7 witness: the no-sort-column part applied at a concrete
two-file list with one failure. -/
theorem consolidate_success_rows_witness :
    (consolidate [sampleSuccess "f1" 10, sampleFailure]).length =
      (([sampleSuccess "f1" 10, sampleFailure] : List DocumentExtraction).filter
        (fun e => e.success)).length :=
  consolidate_success_rows.2.2.1 [sampleSuccess "f1" 10, sampleFailure]
    (by rfl) (by rfl)

/-- C3: an exception in the consolidation/spreadsheet stage only sets
the job's error message and the job still reaches Completed; only a
pipeline-level exception outside the per-file loop drives the job to
Failed, with that exception's message. -/
theorem consolidation_vs_pipeline_failure :
    (∀ cfg req files jenv e, jenv.storeResult = Except.ok () →
      req.consolidate = true →
      (jobRecords cfg req files).isEmpty = false →
      (consolidate (jobRecords cfg req files)).isEmpty = false →
      jenv.excelResult = Except.error e →
      (processJob cfg req files jenv).1.status = JobStatus.completed ∧
      (processJob cfg req files jenv).1.error_message =
        some ("Consolidation failed: " ++ e)) ∧
    (∀ cfg req files jenv msg, jenv.storeResult = Except.error msg →
      (processJob cfg req files jenv).1.status = JobStatus.failed ∧
      (processJob cfg req files jenv).1.error_message = some msg) ∧
    (∀ cfg req files jenv,
      (processJob cfg req files jenv).1.status = JobStatus.failed →
      ∃ msg, jenv.storeResult = Except.error msg) := by
  refine ⟨?_, ?_, ?_⟩
  · intro cfg req files jenv e hstore hcons hrec hdf hexcel
    rcases jenv with ⟨store, excel⟩
    simp only at hstore hexcel
    subst hstore
    subst hexcel
    constructor
    · simp [processJob]
    · simp [processJob, consolidationStep, hcons, hrec, hdf]
  · intro cfg req files jenv msg hstore
    rcases jenv with ⟨store, excel⟩
    simp only at hstore
    subst hstore
    exact ⟨by simp [processJob], by simp [processJob]⟩
  · intro cfg req files jenv hfail
    rcases jenv with ⟨store, excel⟩
    cases store with
    | error m => exact ⟨m, rfl⟩
    | ok u =>
      simp [processJob] at hfail

/-- C3 witness: a one-file job whose spreadsheet generation raises
reaches Completed with the error message set; and a job whose results
write raises reaches Failed with that message. -/
theorem consolidation_vs_pipeline_failure_witness :
    (processJob defaultOcrConfig ⟨"invoice", Option.none, true⟩
      [⟨"f1", "a.pdf", textProviderFailEnv⟩]
      ⟨Except.ok (), Except.error "disk full"⟩).1.status = JobStatus.completed :=
  (consolidation_vs_pipeline_failure.1 defaultOcrConfig
    ⟨"invoice", Option.none, true⟩ [⟨"f1", "a.pdf", textProviderFailEnv⟩]
    ⟨Except.ok (), Except.error "disk full"⟩ "disk full"
    rfl rfl (by rfl) (by rfl) rfl).1

/-- Progress is monotone in the number of processed files. -/
lemma progressOf_mono (n : Nat) {j k : Nat} (h : j ≤ k) :
    progressOf n j ≤ progressOf n k := by
  unfold progressOf
  rcases Nat.eq_zero_or_pos n with h0 | h0
  · subst h0; simp
  · have hn : (0 : Rat) < (n : Rat) := by exact_mod_cast h0
    have hjk : (j : Rat) ≤ (k : Rat) := by exact_mod_cast h
    exact mul_le_mul_of_nonneg_right
      ((div_le_div_iff_of_pos_right hn).mpr hjk) (by norm_num)

/-- After all files of a non-empty job, progress is exactly 100. -/
lemma progressOf_self (n : Nat) (h : 0 < n) : progressOf n n = 100 := by
  unfold progressOf
  have hne : (n : Rat) ≠ 0 := by
    exact_mod_cast Nat.pos_iff_ne_zero.mp h
  field_simp

/-- Progress never exceeds 100 while the counter is in range. -/
lemma progressOf_le_100 (n k : Nat) (hk : k ≤ n) : progressOf n k ≤ 100 := by
  rcases Nat.eq_zero_or_pos n with h0 | h0
  · subst h0
    have : k = 0 := Nat.le_zero.mp hk
    subst this
    simp [progressOf]
  · calc progressOf n k ≤ progressOf n n := progressOf_mono n hk
      _ = 100 := progressOf_self n h0

/-- Invariants of the per-file loop: the final record advances the
counter and the progress together and touches nothing else; the
snapshot sequence has non-decreasing progress, stays in Processing with
the counter in range, and ends at the final record. -/
lemma runFiles_spec (n : Nat) :
    ∀ (fs : List FileSpec) (idx : Nat) (s : JobState),
      s.files_processed = idx → s.progress = progressOf n idx →
      s.total_files = n → s.status = JobStatus.processing →
      idx + fs.length ≤ n →
      ((runFiles n fs idx s).1.files_processed = idx + fs.length ∧
       (runFiles n fs idx s).1.progress = progressOf n (idx + fs.length) ∧
       (runFiles n fs idx s).1.total_files = n ∧
       (runFiles n fs idx s).1.status = JobStatus.processing ∧
       (runFiles n fs idx s).1.extractions = s.extractions ∧
       (runFiles n fs idx s).1.error_message = s.error_message ∧
       (runFiles n fs idx s).1.output_file_path = s.output_file_path) ∧
      List.Chain' (fun a b => a.progress ≤ b.progress)
        (s :: (runFiles n fs idx s).2) ∧
      (∀ t ∈ (runFiles n fs idx s).2,
        t.files_processed ≤ n ∧ t.total_files = n ∧
        t.status = JobStatus.processing) ∧
      (s :: (runFiles n fs idx s).2).getLast? = some (runFiles n fs idx s).1 := by
  intro fs
  induction fs with
  | nil =>
    intro idx s h1 h2 h3 h4 h5
    refine ⟨⟨?_, ?_, h3, h4, rfl, rfl, rfl⟩, ?_, ?_, ?_⟩
    · simpa using h1
    · simpa using h2
    · simp [runFiles]
    · simp [runFiles]
    · simp [runFiles]
  | cons f fs ih =>
    intro idx s h1 h2 h3 h4 h5
    have hstep := ih (idx + 1)
      { s with current_file := some f.filename,
               files_processed := idx + 1, progress := progressOf n (idx + 1) }
      rfl rfl h3 h4 (by simpa [Nat.add_assoc, Nat.add_comm 1 fs.length] using h5)
    obtain ⟨⟨g1, g2, g3, g4, g5, g6, g7⟩, gchain, gmem, glast⟩ := hstep
    refine ⟨⟨?_, ?_, g3, g4, g5, g6, g7⟩, ?_, ?_, ?_⟩
    · rw [show (runFiles n (f :: fs) idx s).1 =
          (runFiles n fs (idx + 1)
            { s with current_file := some f.filename,
                     files_processed := idx + 1,
                     progress := progressOf n (idx + 1) }).1 from rfl, g1,
        List.length_cons]
      omega
    · rw [show (runFiles n (f :: fs) idx s).1 =
          (runFiles n fs (idx + 1)
            { s with current_file := some f.filename,
                     files_processed := idx + 1,
                     progress := progressOf n (idx + 1) }).1 from rfl, g2,
        List.length_cons]
      congr 1
      omega
    · rw [show (runFiles n (f :: fs) idx s).2 =
          { s with current_file := some f.filename } ::
          { s with current_file := some f.filename,
                   files_processed := idx + 1, progress := progressOf n (idx + 1) } ::
          (runFiles n fs (idx + 1)
            { s with current_file := some f.filename,
                     files_processed := idx + 1,
                     progress := progressOf n (idx + 1) }).2 from rfl]
      rw [List.chain'_cons, List.chain'_cons]
      refine ⟨le_of_eq rfl, ?_, gchain⟩
      show s.progress ≤ progressOf n (idx + 1)
      rw [h2]
      exact progressOf_mono n (Nat.le_succ idx)
    · rw [show (runFiles n (f :: fs) idx s).2 =
          { s with current_file := some f.filename } ::
          { s with current_file := some f.filename,
                   files_processed := idx + 1, progress := progressOf n (idx + 1) } ::
          (runFiles n fs (idx + 1)
            { s with current_file := some f.filename,
                     files_processed := idx + 1,
                     progress := progressOf n (idx + 1) }).2 from rfl]
      intro t ht
      rcases List.mem_cons.mp ht with hA | ht
      · subst hA
        refine ⟨?_, h3, h4⟩
        show s.files_processed ≤ n
        omega
      · rcases List.mem_cons.mp ht with hB | ht
        · subst hB
          refine ⟨?_, h3, h4⟩
          show idx + 1 ≤ n
          rw [List.length_cons] at h5
          omega
        · exact gmem t ht
    · rw [show (runFiles n (f :: fs) idx s).2 =
          { s with current_file := some f.filename } ::
          { s with current_file := some f.filename,
                   files_processed := idx + 1, progress := progressOf n (idx + 1) } ::
          (runFiles n fs (idx + 1)
            { s with current_file := some f.filename,
                     files_processed := idx + 1,
                     progress := progressOf n (idx + 1) }).2 from rfl,
        show (runFiles n (f :: fs) idx s).1 =
          (runFiles n fs (idx + 1)
            { s with current_file := some f.filename,
                     files_processed := idx + 1,
                     progress := progressOf n (idx + 1) }).1 from rfl]
      rw [List.getLast?_cons_cons, List.getLast?_cons_cons]
      exact glast

/-- C2: across the snapshots a status poll can observe, progress is
non-decreasing; `files_processed` never exceeds `total_files`; progress
is exactly 100 whenever the status is Completed; and the counter equals
the total once the job is Completed or Failed. -/
theorem job_progress_invariants :
    ∀ cfg req files jenv, 0 < files.length →
      List.Chain' (fun a b => a.progress ≤ b.progress)
        (processJob cfg req files jenv).2 ∧
      (∀ s ∈ (processJob cfg req files jenv).2,
        s.files_processed ≤ s.total_files) ∧
      (∀ s ∈ (processJob cfg req files jenv).2,
        s.status = JobStatus.completed → s.progress = 100) ∧
      (∀ s ∈ (processJob cfg req files jenv).2,
        s.status = JobStatus.completed ∨ s.status = JobStatus.failed →
        s.files_processed = s.total_files) := by
  intro cfg req files jenv hn
  rcases jenv with ⟨store, excel⟩
  obtain ⟨⟨g1, g2, g3, g4, g5, g6, g7⟩, gchain, gmem, glast⟩ :=
    runFiles_spec files.length files 0
      { initialJob files.length with status := JobStatus.processing }
      rfl (by simp [initialJob, progressOf]) rfl rfl (by omega)
  rw [Nat.zero_add] at g1 g2
  have hlast2 : (initialJob files.length ::
      { initialJob files.length with status := JobStatus.processing } ::
      (runFiles files.length files 0
        { initialJob files.length with status := JobStatus.processing }).2).getLast? =
      some (runFiles files.length files 0
        { initialJob files.length with status := JobStatus.processing }).1 := by
    rw [List.getLast?_cons_cons]
    exact glast
  have hchain2 : List.Chain' (fun a b => a.progress ≤ b.progress)
      (initialJob files.length ::
        { initialJob files.length with status := JobStatus.processing } ::
        (runFiles files.length files 0
          { initialJob files.length with status := JobStatus.processing }).2) :=
    List.chain'_cons.mpr ⟨le_of_eq rfl, gchain⟩
  cases store with
  | error m =>
    have hgoal : (processJob cfg req files ⟨Except.error m, excel⟩).2 =
        (initialJob files.length ::
          { initialJob files.length with status := JobStatus.processing } ::
          (runFiles files.length files 0
            { initialJob files.length with status := JobStatus.processing }).2) ++
        [{ (runFiles files.length files 0
              { initialJob files.length with status := JobStatus.processing }).1 with
            status := JobStatus.failed, error_message := some m }] := rfl
    refine ⟨?_, ?_, ?_, ?_⟩
    · rw [hgoal]
      refine List.Chain'.append hchain2 (List.chain'_singleton _) ?_
      intro x hx y hy
      rw [hlast2] at hx
      simp only [Option.mem_def, Option.some.injEq] at hx
      simp only [List.head?_cons, Option.mem_def, Option.some.injEq] at hy
      subst hx
      subst hy
      exact le_of_eq rfl
    · intro s hs
      rw [hgoal] at hs
      rcases List.mem_append.mp hs with h | h
      · rcases List.mem_cons.mp h with h | h
        · subst h; exact Nat.zero_le _
        · rcases List.mem_cons.mp h with h | h
          · subst h; exact Nat.zero_le _
          · obtain ⟨hf, ht, _⟩ := gmem s h
            rw [ht]; exact hf
      · rw [List.mem_singleton] at h
        subst h
        show (runFiles files.length files 0 _).1.files_processed ≤
          (runFiles files.length files 0 _).1.total_files
        rw [g1, g3]
    · intro s hs hcomp
      rw [hgoal] at hs
      rcases List.mem_append.mp hs with h | h
      · rcases List.mem_cons.mp h with h | h
        · subst h; cases hcomp
        · rcases List.mem_cons.mp h with h | h
          · subst h; cases hcomp
          · obtain ⟨_, _, hst⟩ := gmem s h
            rw [hst] at hcomp
            cases hcomp
      · rw [List.mem_singleton] at h
        subst h; cases hcomp
    · intro s hs hterm
      rw [hgoal] at hs
      rcases List.mem_append.mp hs with h | h
      · rcases List.mem_cons.mp h with h | h
        · subst h; rcases hterm with h' | h' <;> cases h'
        · rcases List.mem_cons.mp h with h | h
          · subst h; rcases hterm with h' | h' <;> cases h'
          · obtain ⟨_, _, hst⟩ := gmem s h
            rw [hst] at hterm
            rcases hterm with h' | h' <;> cases h'
      · rw [List.mem_singleton] at h
        subst h
        show (runFiles files.length files 0 _).1.files_processed =
          (runFiles files.length files 0 _).1.total_files
        rw [g1, g3]
  | ok u =>
    obtain ⟨q1, q2, q3, q4, q5⟩ := consolidationStep_proj req ⟨Except.ok u, excel⟩
      (jobRecords cfg req files)
      { (runFiles files.length files 0
          { initialJob files.length with status := JobStatus.processing }).1 with
        extractions := jobRecords cfg req files }
    have hgoal : (processJob cfg req files ⟨Except.ok u, excel⟩).2 =
        (initialJob files.length ::
          { initialJob files.length with status := JobStatus.processing } ::
          (runFiles files.length files 0
            { initialJob files.length with status := JobStatus.processing }).2) ++
        [{ (runFiles files.length files 0
              { initialJob files.length with status := JobStatus.processing }).1 with
            extractions := jobRecords cfg req files },
         consolidationStep req ⟨Except.ok u, excel⟩ (jobRecords cfg req files)
           { (runFiles files.length files 0
               { initialJob files.length with status := JobStatus.processing }).1 with
             extractions := jobRecords cfg req files },
         { consolidationStep req ⟨Except.ok u, excel⟩ (jobRecords cfg req files)
             { (runFiles files.length files 0
                 { initialJob files.length with status := JobStatus.processing }).1 with
               extractions := jobRecords cfg req files } with
           status := JobStatus.completed },
         { consolidationStep req ⟨Except.ok u, excel⟩ (jobRecords cfg req files)
             { (runFiles files.length files 0
                 { initialJob files.length with status := JobStatus.processing }).1 with
               extractions := jobRecords cfg req files } with
           status := JobStatus.completed, progress := 100 }] := rfl
    have hE : ({ (runFiles files.length files 0
        { initialJob files.length with status := JobStatus.processing }).1 with
        extractions := jobRecords cfg req files } : JobState).progress =
        progressOf files.length files.length := g2
    have hprog100 : progressOf files.length files.length = 100 :=
      progressOf_self files.length hn
    refine ⟨?_, ?_, ?_, ?_⟩
    · rw [hgoal]
      refine List.Chain'.append hchain2 ?_ ?_
      · refine List.chain'_cons.mpr ⟨le_of_eq q2.symm, ?_⟩
        refine List.chain'_cons.mpr ⟨le_of_eq rfl, ?_⟩
        refine List.chain'_cons.mpr ⟨?_, List.chain'_singleton _⟩
        show (consolidationStep _ _ _ _).progress ≤ (100 : Rat)
        rw [q2, hE, hprog100]
      · intro x hx y hy
        rw [hlast2] at hx
        simp only [Option.mem_def, Option.some.injEq] at hx
        simp only [List.head?_cons, Option.mem_def, Option.some.injEq] at hy
        subst hx
        subst hy
        exact le_of_eq rfl
    · intro s hs
      rw [hgoal] at hs
      rcases List.mem_append.mp hs with h | h
      · rcases List.mem_cons.mp h with h | h
        · subst h; exact Nat.zero_le _
        · rcases List.mem_cons.mp h with h | h
          · subst h; exact Nat.zero_le _
          · obtain ⟨hf, ht, _⟩ := gmem s h
            rw [ht]; exact hf
      · rcases List.mem_cons.mp h with h | h
        · subst h
          show (runFiles files.length files 0 _).1.files_processed ≤
            (runFiles files.length files 0 _).1.total_files
          rw [g1, g3]
        · rcases List.mem_cons.mp h with h | h
          · subst h
            rw [q3, q4]
            show (runFiles files.length files 0 _).1.files_processed ≤
              (runFiles files.length files 0 _).1.total_files
            rw [g1, g3]
          · rcases List.mem_cons.mp h with h | h
            · subst h
              show (consolidationStep _ _ _ _).files_processed ≤
                (consolidationStep _ _ _ _).total_files
              rw [q3, q4]
              show (runFiles files.length files 0 _).1.files_processed ≤
                (runFiles files.length files 0 _).1.total_files
              rw [g1, g3]
            · rw [List.mem_singleton] at h
              subst h
              show (consolidationStep _ _ _ _).files_processed ≤
                (consolidationStep _ _ _ _).total_files
              rw [q3, q4]
              show (runFiles files.length files 0 _).1.files_processed ≤
                (runFiles files.length files 0 _).1.total_files
              rw [g1, g3]
    · intro s hs hcomp
      rw [hgoal] at hs
      rcases List.mem_append.mp hs with h | h
      · rcases List.mem_cons.mp h with h | h
        · subst h; cases hcomp
        · rcases List.mem_cons.mp h with h | h
          · subst h; cases hcomp
          · obtain ⟨_, _, hst⟩ := gmem s h
            rw [hst] at hcomp
            cases hcomp
      · rcases List.mem_cons.mp h with h | h
        · subst h
          rw [show ({ (runFiles files.length files 0
              { initialJob files.length with status := JobStatus.processing }).1 with
              extractions := jobRecords cfg req files } : JobState).status =
            (runFiles files.length files 0
              { initialJob files.length with status := JobStatus.processing }).1.status
            from rfl, g4] at hcomp
          cases hcomp
        · rcases List.mem_cons.mp h with h | h
          · subst h
            rw [q1] at hcomp
            rw [show ({ (runFiles files.length files 0
                { initialJob files.length with status := JobStatus.processing }).1 with
                extractions := jobRecords cfg req files } : JobState).status =
              (runFiles files.length files 0
                { initialJob files.length with status := JobStatus.processing }).1.status
              from rfl, g4] at hcomp
            cases hcomp
          · rcases List.mem_cons.mp h with h | h
            · subst h
              show ({ consolidationStep _ _ _ _ with
                status := JobStatus.completed } : JobState).progress = 100
              rw [show ({ consolidationStep req ⟨Except.ok u, excel⟩
                  (jobRecords cfg req files)
                  { (runFiles files.length files 0
                      { initialJob files.length with status := JobStatus.processing }).1 with
                    extractions := jobRecords cfg req files } with
                  status := JobStatus.completed } : JobState).progress =
                (consolidationStep req ⟨Except.ok u, excel⟩ (jobRecords cfg req files)
                  { (runFiles files.length files 0
                      { initialJob files.length with status := JobStatus.processing }).1 with
                    extractions := jobRecords cfg req files }).progress from rfl,
                q2, hE, hprog100]
            · rw [List.mem_singleton] at h
              subst h; rfl
    · intro s hs hterm
      rw [hgoal] at hs
      rcases List.mem_append.mp hs with h | h
      · rcases List.mem_cons.mp h with h | h
        · subst h; rcases hterm with h' | h' <;> cases h'
        · rcases List.mem_cons.mp h with h | h
          · subst h; rcases hterm with h' | h' <;> cases h'
          · obtain ⟨_, _, hst⟩ := gmem s h
            rw [hst] at hterm
            rcases hterm with h' | h' <;> cases h'
      · rcases List.mem_cons.mp h with h | h
        · subst h
          show (runFiles files.length files 0 _).1.files_processed =
            (runFiles files.length files 0 _).1.total_files
          rw [g1, g3]
        · rcases List.mem_cons.mp h with h | h
          · subst h
            rw [q3, q4]
            show (runFiles files.length files 0 _).1.files_processed =
              (runFiles files.length files 0 _).1.total_files
            rw [g1, g3]
          · rcases List.mem_cons.mp h with h | h
            · subst h
              show (consolidationStep _ _ _ _).files_processed =
                (consolidationStep _ _ _ _).total_files
              rw [q3, q4]
              show (runFiles files.length files 0 _).1.files_processed =
                (runFiles files.length files 0 _).1.total_files
              rw [g1, g3]
            · rw [List.mem_singleton] at h
              subst h
              show (consolidationStep _ _ _ _).files_processed =
                (consolidationStep _ _ _ _).total_files
              rw [q3, q4]
              show (runFiles files.length files 0 _).1.files_processed =
                (runFiles files.length files 0 _).1.total_files
              rw [g1, g3]

/-- C2 witness: the invariants at a concrete one-file job. -/
theorem job_progress_invariants_witness :
    List.Chain' (fun a b => a.progress ≤ b.progress)
      (processJob defaultOcrConfig ⟨"invoice", Option.none, false⟩
        [⟨"f1", "a.pdf", textProviderFailEnv⟩] ⟨Except.ok (), Except.ok "o"⟩).2 :=
  (job_progress_invariants defaultOcrConfig ⟨"invoice", Option.none, false⟩
    [⟨"f1", "a.pdf", textProviderFailEnv⟩] ⟨Except.ok (), Except.ok "o"⟩
    (by decide)).1

/-- `String.append` acts as list append on the character data. -/
lemma strData_append (a b : String) : (a ++ b).data = a.data ++ b.data := by
  cases a
  cases b
  rfl

/-- Two appended strings differ when their suffixes' last four
characters differ (used for the summary's fixed stat suffixes). -/
lemma append_suffix_ne (a b : String) {s t : String}
    (hs : 4 ≤ s.data.length) (ht : 4 ≤ t.data.length)
    (hne : s.data.reverse.take 4 ≠ t.data.reverse.take 4) :
    a ++ s ≠ b ++ t := by
  intro h
  apply hne
  have hd : (a ++ s).data = (b ++ t).data := congrArg String.data h
  rw [strData_append, strData_append] at hd
  have hr := congrArg List.reverse hd
  rw [List.reverse_append, List.reverse_append] at hr
  have h4 := congrArg (List.take 4) hr
  rw [List.take_append_of_le_length (by simpa using hs),
    List.take_append_of_le_length (by simpa using ht)] at h4
  exact h4

/-- Appending one suffix to different strings keeps them apart. -/
lemma append_right_cancel_ne (a b s : String) (h : a ≠ b) : a ++ s ≠ b ++ s := by
  intro he
  apply h
  have hd : (a ++ s).data = (b ++ s).data := congrArg String.data he
  rw [strData_append, strData_append] at hd
  have hab := List.append_cancel_right hd
  cases a
  cases b
  exact congrArg String.mk hab

/-- A key different from both base keys is absent from the base dict. -/
lemma pyGet_pair_none (x y : PyValue) (k : String)
    (h1 : k ≠ "total_records") (h2 : k ≠ "columns") :
    pyGet [("total_records", x), ("columns", y)] k = PyValue.none := by
  have hb1 : ("total_records" == k) = false :=
    beq_eq_false_iff_ne.mpr (Ne.symm h1)
  have hb2 : ("columns" == k) = false :=
    beq_eq_false_iff_ne.mpr (Ne.symm h2)
  simp [pyGet, List.find?, hb1, hb2]

/-- Overwriting a key in place: the lookup of the written key. -/
lemma pyGet_map_self (d : List (String × PyValue)) (k : String) (v : PyValue)
    (hany : d.any (fun p => p.1 == k) = true) :
    pyGet (d.map (fun p => if p.1 == k then (k, v) else p)) k = v := by
  induction d with
  | nil => simp at hany
  | cons kv rest ih =>
    rw [List.map_cons]
    by_cases h : kv.1 = k
    · have hhead : (if kv.1 == k then (k, v) else kv) = (k, v) := by simp [h]
      rw [hhead]
      simp [pyGet, List.find?]
    · have hrest : rest.any (fun p => p.1 == k) = true := by
        simpa [List.any_cons, h] using hany
      have hhead : (if kv.1 == k then (k, v) else kv) = kv := by simp [h]
      rw [hhead]
      have hb : (kv.1 == k) = false := beq_eq_false_iff_ne.mpr h
      have hskip : pyGet
          (kv :: rest.map (fun p => if p.1 == k then (k, v) else p)) k =
          pyGet (rest.map (fun p => if p.1 == k then (k, v) else p)) k := by
        simp [pyGet, List.find?, hb]
      rw [hskip]
      exact ih hrest

/-- Overwriting a key in place: every other lookup is unchanged. -/
lemma pyGet_map_ne (d : List (String × PyValue)) (k : String) (v : PyValue)
    (a : String) (h : a ≠ k) :
    pyGet (d.map (fun p => if p.1 == k then (k, v) else p)) a = pyGet d a := by
  have hka : ¬ (k = a) := fun hh => h hh.symm
  induction d with
  | nil => rfl
  | cons kv rest ih =>
    rw [List.map_cons]
    by_cases hk : kv.1 = k
    · have hne : ¬ (kv.1 = a) := by
        rw [hk]
        exact hka
      have hhead : (if kv.1 == k then (k, v) else kv) = (k, v) := by simp [hk]
      rw [hhead]
      have hbka : (k == a) = false := beq_eq_false_iff_ne.mpr hka
      have hbkva : (kv.1 == a) = false := beq_eq_false_iff_ne.mpr hne
      have h1 : pyGet
          ((k, v) :: rest.map (fun p => if p.1 == k then (k, v) else p)) a =
          pyGet (rest.map (fun p => if p.1 == k then (k, v) else p)) a := by
        simp [pyGet, List.find?, hbka]
      have h2 : pyGet (kv :: rest) a = pyGet rest a := by
        simp [pyGet, List.find?, hbkva]
      rw [h1, h2]
      exact ih
    · have hhead : (if kv.1 == k then (k, v) else kv) = kv := by simp [hk]
      rw [hhead]
      by_cases ha : kv.1 = a
      · simp [pyGet, List.find?, ha]
      · have hbkva : (kv.1 == a) = false := beq_eq_false_iff_ne.mpr ha
        have h1 : pyGet
            (kv :: rest.map (fun p => if p.1 == k then (k, v) else p)) a =
            pyGet (rest.map (fun p => if p.1 == k then (k, v) else p)) a := by
          simp [pyGet, List.find?, hbkva]
        have h2 : pyGet (kv :: rest) a = pyGet rest a := by
          simp [pyGet, List.find?, hbkva]
        rw [h1, h2]
        exact ih

/-- Looking up the key just written. -/
lemma pyGet_dictSet_self (d : List (String × PyValue)) (k : String) (v : PyValue) :
    pyGet (dictSet d k v) k = v := by
  unfold dictSet
  split
  · next hany => exact pyGet_map_self d k v hany
  · next hany =>
    have hnone : d.find? (fun p => p.1 == k) = Option.none := by
      rw [List.find?_eq_none]
      intro p hp hpk
      exact hany (List.any_eq_true.mpr ⟨p, hp, hpk⟩)
    simp [pyGet, List.find?_append, hnone, List.find?]

/-- Writing one key leaves every other lookup unchanged. -/
lemma pyGet_dictSet_ne (d : List (String × PyValue)) (k : String) (v : PyValue)
    (a : String) (h : a ≠ k) : pyGet (dictSet d k v) a = pyGet d a := by
  have hka : ¬ (k = a) := fun hh => h hh.symm
  unfold dictSet
  split
  · exact pyGet_map_ne d k v a h
  · have hbka : (k == a) = false := beq_eq_false_iff_ne.mpr hka
    simp only [pyGet, List.find?_append]
    rcases hfind : d.find? (fun p => p.1 == a) with _ | p
    · rw [hfind]
      simp [hka]
    · rw [hfind]
      simp

/-- The numeric fold leaves a key alone when the key collides with
none of the stat entries the fold can write. -/
lemma pyGet_numFold_skip (records : List (List (String × PyValue)))
    (cols : List String) (acc : List (String × PyValue)) (k : String)
    (h : ∀ c ∈ cols, strEndsWith c "_confidence" = false →
      k ≠ c ++ "_sum" ∧ k ≠ c ++ "_mean" ∧ k ≠ c ++ "_min" ∧ k ≠ c ++ "_max") :
    pyGet (cols.foldl (numericStatStep records) acc) k = pyGet acc k := by
  induction cols generalizing acc with
  | nil => rfl
  | cons c rest ih =>
    rw [List.foldl_cons, ih _ (fun c2 hc2 => h c2 (List.mem_cons_of_mem _ hc2))]
    unfold numericStatStep
    split
    · rfl
    · next hnc =>
      obtain ⟨h1, h2, h3, h4⟩ :=
        h c (List.mem_cons_self _ _) (by simpa using hnc)
      rw [pyGet_dictSet_ne _ _ _ _ h4, pyGet_dictSet_ne _ _ _ _ h3,
        pyGet_dictSet_ne _ _ _ _ h2, pyGet_dictSet_ne _ _ _ _ h1]

/-- The datetime fold leaves a key alone when the key collides with
none of the entries the fold can write. -/
lemma pyGet_dateFold_skip (records : List (List (String × PyValue)))
    (cols : List String) (acc : List (String × PyValue)) (k : String)
    (h : ∀ c ∈ cols, c ≠ "extraction_time" →
      k ≠ c ++ "_earliest" ∧ k ≠ c ++ "_latest") :
    pyGet (cols.foldl (dateStatStep records) acc) k = pyGet acc k := by
  induction cols generalizing acc with
  | nil => rfl
  | cons c rest ih =>
    rw [List.foldl_cons, ih _ (fun c2 hc2 => h c2 (List.mem_cons_of_mem _ hc2))]
    unfold dateStatStep
    split
    · rfl
    · next hnc =>
      obtain ⟨h1, h2⟩ := h c (List.mem_cons_self _ _) (by simpa using hnc)
      rw [pyGet_dictSet_ne _ _ _ _ h2, pyGet_dictSet_ne _ _ _ _ h1]

/-- After the numeric fold, a non-`_confidence` column of the (nodup)
column list owns its four stat entries with the computed values. -/
lemma pyGet_numFold_mem (records : List (List (String × PyValue))) :
    ∀ (cols : List String) (acc : List (String × PyValue)) (c : String),
      cols.Nodup → c ∈ cols → strEndsWith c "_confidence" = false →
      pyGet (cols.foldl (numericStatStep records) acc) (c ++ "_sum") =
        PyValue.num (ratSum (numericVals records c)) ∧
      pyGet (cols.foldl (numericStatStep records) acc) (c ++ "_mean") =
        ratMean (numericVals records c) ∧
      pyGet (cols.foldl (numericStatStep records) acc) (c ++ "_min") =
        ratMin (numericVals records c) ∧
      pyGet (cols.foldl (numericStatStep records) acc) (c ++ "_max") =
        ratMax (numericVals records c) := by
  intro cols
  induction cols with
  | nil =>
    intro acc c _ hmem
    cases hmem
  | cons c0 rest ih =>
    intro acc c hnodup hmem hnc
    rw [List.foldl_cons]
    rcases List.mem_cons.mp hmem with hc | hc
    · subst hc
      have hcc : ∀ c2 ∈ rest, c ≠ c2 :=
        fun c2 h2 he => (List.nodup_cons.mp hnodup).1 (he ▸ h2)
      have hstep : numericStatStep records acc c =
          dictSet
            (dictSet
              (dictSet
                (dictSet acc (c ++ "_sum")
                  (PyValue.num (ratSum (numericVals records c))))
                (c ++ "_mean") (ratMean (numericVals records c)))
              (c ++ "_min") (ratMin (numericVals records c)))
            (c ++ "_max") (ratMax (numericVals records c)) := by
        unfold numericStatStep
        rw [if_neg (by simp [hnc])]
      have nSumMean : c ++ "_sum" ≠ c ++ "_mean" :=
        append_suffix_ne _ _ (by decide) (by decide) (by decide)
      have nSumMin : c ++ "_sum" ≠ c ++ "_min" :=
        append_suffix_ne _ _ (by decide) (by decide) (by decide)
      have nSumMax : c ++ "_sum" ≠ c ++ "_max" :=
        append_suffix_ne _ _ (by decide) (by decide) (by decide)
      have nMeanMin : c ++ "_mean" ≠ c ++ "_min" :=
        append_suffix_ne _ _ (by decide) (by decide) (by decide)
      have nMeanMax : c ++ "_mean" ≠ c ++ "_max" :=
        append_suffix_ne _ _ (by decide) (by decide) (by decide)
      have nMinMax : c ++ "_min" ≠ c ++ "_max" :=
        append_suffix_ne _ _ (by decide) (by decide) (by decide)
      refine ⟨?_, ?_, ?_, ?_⟩
      · rw [pyGet_numFold_skip records rest _ _ (fun c2 h2 _ =>
          ⟨append_right_cancel_ne _ _ _ (hcc c2 h2),
           append_suffix_ne _ _ (by decide) (by decide) (by decide),
           append_suffix_ne _ _ (by decide) (by decide) (by decide),
           append_suffix_ne _ _ (by decide) (by decide) (by decide)⟩),
          hstep, pyGet_dictSet_ne _ _ _ _ nSumMax,
          pyGet_dictSet_ne _ _ _ _ nSumMin,
          pyGet_dictSet_ne _ _ _ _ nSumMean, pyGet_dictSet_self]
      · rw [pyGet_numFold_skip records rest _ _ (fun c2 h2 _ =>
          ⟨append_suffix_ne _ _ (by decide) (by decide) (by decide),
           append_right_cancel_ne _ _ _ (hcc c2 h2),
           append_suffix_ne _ _ (by decide) (by decide) (by decide),
           append_suffix_ne _ _ (by decide) (by decide) (by decide)⟩),
          hstep, pyGet_dictSet_ne _ _ _ _ nMeanMax,
          pyGet_dictSet_ne _ _ _ _ nMeanMin, pyGet_dictSet_self]
      · rw [pyGet_numFold_skip records rest _ _ (fun c2 h2 _ =>
          ⟨append_suffix_ne _ _ (by decide) (by decide) (by decide),
           append_suffix_ne _ _ (by decide) (by decide) (by decide),
           append_right_cancel_ne _ _ _ (hcc c2 h2),
           append_suffix_ne _ _ (by decide) (by decide) (by decide)⟩),
          hstep, pyGet_dictSet_ne _ _ _ _ nMinMax, pyGet_dictSet_self]
      · rw [pyGet_numFold_skip records rest _ _ (fun c2 h2 _ =>
          ⟨append_suffix_ne _ _ (by decide) (by decide) (by decide),
           append_suffix_ne _ _ (by decide) (by decide) (by decide),
           append_suffix_ne _ _ (by decide) (by decide) (by decide),
           append_right_cancel_ne _ _ _ (hcc c2 h2)⟩),
          hstep, pyGet_dictSet_self]
    · exact ih _ c (List.nodup_cons.mp hnodup).2 hc hnc

/-- The accumulated column list of one record keeps distinct entries. -/
lemma nodup_dfColumns_step (r : List (String × PyValue)) :
    ∀ acc : List String, acc.Nodup →
      (r.foldl (fun acc2 kv =>
        if acc2.contains kv.1 then acc2 else acc2 ++ [kv.1]) acc).Nodup := by
  induction r with
  | nil => exact fun acc h => h
  | cons kv rest ih =>
    intro acc h
    rw [List.foldl_cons]
    apply ih
    split
    · exact h
    · next hc =>
      rw [List.nodup_append]
      refine ⟨h, List.nodup_singleton _, ?_⟩
      intro a ha hb
      rw [List.mem_singleton] at hb
      subst hb
      exact hc (by simpa using ha)

/-- The DataFrame columns are pairwise distinct. -/
lemma dfColumns_nodup (records : List (List (String × PyValue))) :
    (dfColumns records).Nodup := by
  unfold dfColumns
  suffices h : ∀ (rs : List (List (String × PyValue))) (acc : List String),
      acc.Nodup →
      (rs.foldl (fun acc r =>
        r.foldl (fun acc2 kv =>
          if acc2.contains kv.1 then acc2 else acc2 ++ [kv.1]) acc) acc).Nodup by
    exact h records [] List.nodup_nil
  intro rs
  induction rs with
  | nil => exact fun acc h => h
  | cons r rest ih =>
    intro acc h
    rw [List.foldl_cons]
    exact ih _ (nodup_dfColumns_step r acc h)

/-- A summary key that collides with no writable entry and no base key
is absent. -/
lemma summary_key_none (records : List (List (String × PyValue))) (k : String)
    (hnum : ∀ c2, strEndsWith c2 "_confidence" = false →
      k ≠ c2 ++ "_sum" ∧ k ≠ c2 ++ "_mean" ∧ k ≠ c2 ++ "_min" ∧ k ≠ c2 ++ "_max")
    (hdate : ∀ c2, c2 ≠ "extraction_time" →
      k ≠ c2 ++ "_earliest" ∧ k ≠ c2 ++ "_latest")
    (hbase1 : k ≠ "total_records") (hbase2 : k ≠ "columns") :
    pyGet (calculate_summary records) k = PyValue.none := by
  simp only [calculate_summary]
  rw [pyGet_dateFold_skip records _ _ _ (fun c2 _ h2 => hdate c2 h2),
    pyGet_numFold_skip records _ _ _ (fun c2 _ h2 => hnum c2 h2)]
  exact pyGet_pair_none _ _ _ hbase1 hbase2

/-- No stat key collides with the `total_records` base key. -/
lemma stat_ne_total_records (c : String) {s : String} (hs : 4 ≤ s.data.length)
    (hne : s.data.reverse.take 4 ≠ "ords".data.reverse.take 4) :
    c ++ s ≠ "total_records" := by
  rw [show ("total_records" : String) = "total_rec" ++ "ords" from rfl]
  exact append_suffix_ne _ _ hs (by decide) hne

/-- No stat key collides with the `columns` base key. -/
lemma stat_ne_columns (c : String) {s : String} (hs : 4 ≤ s.data.length)
    (hne : s.data.reverse.take 4 ≠ "umns".data.reverse.take 4) :
    c ++ s ≠ "columns" := by
  rw [show ("columns" : String) = "col" ++ "umns" from rfl]
  exact append_suffix_ne _ _ hs (by decide) hne

/-- C8: the summary computes sum/mean/min/max for every numeric column
except `_confidence`-suffixed ones and earliest/latest for every
datetime column except `extraction_time`; the empty table yields the
bare base entries without raising; and on a `total_amount` column of
[10, 20, 30] the stats are 60 / 20 / 10 / 30. -/
theorem summary_statistics_spec :
    calculate_summary [] =
      [("total_records", PyValue.num 0), ("columns", PyValue.list [])] ∧
    (∀ records c, strEndsWith c "_confidence" = true →
      pyGet (calculate_summary records) (c ++ "_sum") = PyValue.none ∧
      pyGet (calculate_summary records) (c ++ "_mean") = PyValue.none ∧
      pyGet (calculate_summary records) (c ++ "_min") = PyValue.none ∧
      pyGet (calculate_summary records) (c ++ "_max") = PyValue.none) ∧
    (∀ records,
      pyGet (calculate_summary records) ("extraction_time" ++ "_earliest") =
        PyValue.none ∧
      pyGet (calculate_summary records) ("extraction_time" ++ "_latest") =
        PyValue.none) ∧
    (∀ records c, c ∈ dfColumns records → isNumericCol records c = true →
      strEndsWith c "_confidence" = false →
      pyGet (calculate_summary records) (c ++ "_sum") =
        PyValue.num (ratSum (numericVals records c)) ∧
      pyGet (calculate_summary records) (c ++ "_mean") =
        ratMean (numericVals records c) ∧
      pyGet (calculate_summary records) (c ++ "_min") =
        ratMin (numericVals records c) ∧
      pyGet (calculate_summary records) (c ++ "_max") =
        ratMax (numericVals records c)) ∧
    pyGet (calculate_summary sampleSummaryTable) "total_amount_sum" =
      PyValue.num 60 ∧
    pyGet (calculate_summary sampleSummaryTable) "total_amount_mean" =
      PyValue.num 20 ∧
    pyGet (calculate_summary sampleSummaryTable) "total_amount_min" =
      PyValue.num 10 ∧
    pyGet (calculate_summary sampleSummaryTable) "total_amount_max" =
      PyValue.num 30 := by
  refine ⟨by rfl, ?_, ?_, ?_, ?_, ?_, ?_, ?_⟩
  · intro records c hc
    have hne_of : ∀ c2, strEndsWith c2 "_confidence" = false → c ≠ c2 := by
      intro c2 hn2 he
      rw [he, hn2] at hc
      exact absurd hc (by decide)
    refine ⟨?_, ?_, ?_, ?_⟩
    · refine summary_key_none records _ ?_ ?_ ?_ ?_
      · intro c2 hn2
        exact ⟨append_right_cancel_ne _ _ _ (hne_of c2 hn2),
          append_suffix_ne _ _ (by decide) (by decide) (by decide),
          append_suffix_ne _ _ (by decide) (by decide) (by decide),
          append_suffix_ne _ _ (by decide) (by decide) (by decide)⟩
      · intro c2 _
        exact ⟨append_suffix_ne _ _ (by decide) (by decide) (by decide),
          append_suffix_ne _ _ (by decide) (by decide) (by decide)⟩
      · exact stat_ne_total_records c (by decide) (by decide)
      · exact stat_ne_columns c (by decide) (by decide)
    · refine summary_key_none records _ ?_ ?_ ?_ ?_
      · intro c2 hn2
        exact ⟨append_suffix_ne _ _ (by decide) (by decide) (by decide),
          append_right_cancel_ne _ _ _ (hne_of c2 hn2),
          append_suffix_ne _ _ (by decide) (by decide) (by decide),
          append_suffix_ne _ _ (by decide) (by decide) (by decide)⟩
      · intro c2 _
        exact ⟨append_suffix_ne _ _ (by decide) (by decide) (by decide),
          append_suffix_ne _ _ (by decide) (by decide) (by decide)⟩
      · exact stat_ne_total_records c (by decide) (by decide)
      · exact stat_ne_columns c (by decide) (by decide)
    · refine summary_key_none records _ ?_ ?_ ?_ ?_
      · intro c2 hn2
        exact ⟨append_suffix_ne _ _ (by decide) (by decide) (by decide),
          append_suffix_ne _ _ (by decide) (by decide) (by decide),
          append_right_cancel_ne _ _ _ (hne_of c2 hn2),
          append_suffix_ne _ _ (by decide) (by decide) (by decide)⟩
      · intro c2 _
        exact ⟨append_suffix_ne _ _ (by decide) (by decide) (by decide),
          append_suffix_ne _ _ (by decide) (by decide) (by decide)⟩
      · exact stat_ne_total_records c (by decide) (by decide)
      · exact stat_ne_columns c (by decide) (by decide)
    · refine summary_key_none records _ ?_ ?_ ?_ ?_
      · intro c2 hn2
        exact ⟨append_suffix_ne _ _ (by decide) (by decide) (by decide),
          append_suffix_ne _ _ (by decide) (by decide) (by decide),
          append_suffix_ne _ _ (by decide) (by decide) (by decide),
          append_right_cancel_ne _ _ _ (hne_of c2 hn2)⟩
      · intro c2 _
        exact ⟨append_suffix_ne _ _ (by decide) (by decide) (by decide),
          append_suffix_ne _ _ (by decide) (by decide) (by decide)⟩
      · exact stat_ne_total_records c (by decide) (by decide)
      · exact stat_ne_columns c (by decide) (by decide)
  · intro records
    constructor
    · refine summary_key_none records _ ?_ ?_ ?_ ?_
      · intro c2 _
        exact ⟨append_suffix_ne _ _ (by decide) (by decide) (by decide),
          append_suffix_ne _ _ (by decide) (by decide) (by decide),
          append_suffix_ne _ _ (by decide) (by decide) (by decide),
          append_suffix_ne _ _ (by decide) (by decide) (by decide)⟩
      · intro c2 hne2
        exact ⟨append_right_cancel_ne _ _ _ (Ne.symm hne2),
          append_suffix_ne _ _ (by decide) (by decide) (by decide)⟩
      · exact stat_ne_total_records _ (by decide) (by decide)
      · exact stat_ne_columns _ (by decide) (by decide)
    · refine summary_key_none records _ ?_ ?_ ?_ ?_
      · intro c2 _
        exact ⟨append_suffix_ne _ _ (by decide) (by decide) (by decide),
          append_suffix_ne _ _ (by decide) (by decide) (by decide),
          append_suffix_ne _ _ (by decide) (by decide) (by decide),
          append_suffix_ne _ _ (by decide) (by decide) (by decide)⟩
      · intro c2 hne2
        exact ⟨append_suffix_ne _ _ (by decide) (by decide) (by decide),
          append_right_cancel_ne _ _ _ (Ne.symm hne2)⟩
      · exact stat_ne_total_records _ (by decide) (by decide)
      · exact stat_ne_columns _ (by decide) (by decide)
  · intro records c hcol hnum hnc
    have hnodupf : ((dfColumns records).filter (isNumericCol records)).Nodup :=
      (dfColumns_nodup records).filter _
    have hmemf : c ∈ (dfColumns records).filter (isNumericCol records) :=
      List.mem_filter.mpr ⟨hcol, hnum⟩
    obtain ⟨m1, m2, m3, m4⟩ := pyGet_numFold_mem records
      ((dfColumns records).filter (isNumericCol records))
      [("total_records", PyValue.num (records.length : Rat)),
       ("columns", PyValue.list ((dfColumns records).map PyValue.str))]
      c hnodupf hmemf hnc
    simp only [calculate_summary]
    refine ⟨?_, ?_, ?_, ?_⟩
    · rw [pyGet_dateFold_skip records _ _ _ (fun c2 _ _ =>
        ⟨append_suffix_ne _ _ (by decide) (by decide) (by decide),
         append_suffix_ne _ _ (by decide) (by decide) (by decide)⟩)]
      exact m1
    · rw [pyGet_dateFold_skip records _ _ _ (fun c2 _ _ =>
        ⟨append_suffix_ne _ _ (by decide) (by decide) (by decide),
         append_suffix_ne _ _ (by decide) (by decide) (by decide)⟩)]
      exact m2
    · rw [pyGet_dateFold_skip records _ _ _ (fun c2 _ _ =>
        ⟨append_suffix_ne _ _ (by decide) (by decide) (by decide),
         append_suffix_ne _ _ (by decide) (by decide) (by decide)⟩)]
      exact m3
    · rw [pyGet_dateFold_skip records _ _ _ (fun c2 _ _ =>
        ⟨append_suffix_ne _ _ (by decide) (by decide) (by decide),
         append_suffix_ne _ _ (by decide) (by decide) (by decide)⟩)]
      exact m4
  · have h : pyGet (calculate_summary sampleSummaryTable) "total_amount_sum" =
        PyValue.num (ratSum (numericVals sampleSummaryTable "total_amount")) := by rfl
    rw [h, show numericVals sampleSummaryTable "total_amount" =
      [10, 20, 30] from rfl]
    simp [ratSum]
    norm_num
  · have h : pyGet (calculate_summary sampleSummaryTable) "total_amount_mean" =
        ratMean (numericVals sampleSummaryTable "total_amount") := by rfl
    rw [h, show numericVals sampleSummaryTable "total_amount" =
      [10, 20, 30] from rfl]
    simp [ratMean, ratSum]
    norm_num
  · have h : pyGet (calculate_summary sampleSummaryTable) "total_amount_min" =
        ratMin (numericVals sampleSummaryTable "total_amount") := by rfl
    rw [h, show numericVals sampleSummaryTable "total_amount" =
      [10, 20, 30] from rfl]
    simp [ratMin]
    norm_num [min_def]
  · have h : pyGet (calculate_summary sampleSummaryTable) "total_amount_max" =
        ratMax (numericVals sampleSummaryTable "total_amount") := by rfl
    rw [h, show numericVals sampleSummaryTable "total_amount" =
      [10, 20, 30] from rfl]
    simp [ratMax]
    norm_num [max_def]

/-- C8 witness: the confidence-exclusion part applied at the concrete
sample table and a concrete confidence column name. -/
theorem summary_statistics_spec_witness :
    pyGet (calculate_summary sampleSummaryTable) ("total_amount_confidence" ++ "_sum") =
      PyValue.none :=
  (summary_statistics_spec.2.1 sampleSummaryTable "total_amount_confidence"
    (by decide)).1

end PdfExtract
